import Mathlib

/-!
Verification development for a variant-Sudoku constraint solver.

The development shallowly embeds the Rust sources of the solver:
`sudoku.rs` (grid state, classic-rule checks, candidate maintenance on
placement), `solver.rs` (most-constrained-cell backtracking search with a
step budget, plus the naked-subset / pointing-pair / hidden-subset
inference passes), `variant/misc/killer.rs` and
`variant/misc/quadruple_circles.rs` (two concrete variants).

Modelling conventions:
* `u8` digits become `Nat`; value `0` denotes an empty cell.
* The 9x9 cell array becomes `List (List Nat)` read through a total
  `getCell` (out-of-range reads yield `0`; all real accesses are in range).
* Rust `HashMap<(usize, usize), Vec<u8>>` candidate maps become
  association lists `List ((Nat × Nat) × List Nat)`.  Hash-map iteration
  order is unspecified in Rust and only influences tie-breaks; the
  embedding fixes row-major order.
* The heterogeneous variant trait becomes a record of its four
  operations.  Variant implementations read the grid only through
  `get_cell`, so the operations take the cell array as input.
* Rust `Result<_, VariantContradiction>` becomes `Except VContra _`.
-/

set_option maxRecDepth 10000

namespace SudokuSpec

abbrev Cellpos := Nat × Nat

abbrev Cells := List (List Nat)

abbrev PossMap := List (Cellpos × List Nat)

/-- Embeds `ALL_POSSIBILITIES` from `variant/mod.rs`. -/
def allDigits : List Nat := [1, 2, 3, 4, 5, 6, 7, 8, 9]

/-- Total read of a cell; `SudokuGrid::get_cell` (all uses are in range). -/
def getCell (cs : Cells) (r c : Nat) : Nat :=
  (cs.getD r []).getD c 0

/-- Total write of a cell (out-of-range writes are dropped); the cell
assignment in `SudokuGrid::set_cell`. -/
def writeCell (cs : Cells) (r c v : Nat) : Cells :=
  cs.set r ((cs.getD r []).set c v)

/-- Embeds `SudokuGrid::used_in_row`. -/
def usedInRow (cs : Cells) (row num : Nat) : Bool :=
  (List.range 9).any fun col => getCell cs row col == num

/-- Embeds `SudokuGrid::used_in_col`. -/
def usedInCol (cs : Cells) (col num : Nat) : Bool :=
  (List.range 9).any fun row => getCell cs row col == num

/-- Embeds `SudokuGrid::used_in_subgrid`. -/
def usedInSubgrid (cs : Cells) (startRow startCol num : Nat) : Bool :=
  (List.range 3).any fun row =>
    (List.range 3).any fun col => getCell cs (row + startRow) (col + startCol) == num

/-- Modelled from the spec: `SudokuGrid::get_standard_possibilities_for_cell`
is called from `solver.rs` but its definition is not among the sources.
Per spec sections 3 and 4.4 the classic candidates of an empty cell are the
digits 1..9 not already present in the cell's row, column, or box. -/
def stdPossibilities (cs : Cells) (row col : Nat) : List Nat :=
  allDigits.filter fun v =>
    !usedInRow cs row v && !usedInCol cs col v &&
      !usedInSubgrid cs (row - row % 3) (col - col % 3) v

/-- Embeds `SudokuGrid::is_valid_group` (the `seen` set is threaded as a list). -/
def isValidGroupAux : List Nat → List Nat → Bool
  | [], _ => true
  | n :: rest, seen =>
    if 1 ≤ n && n ≤ 9 && !seen.contains n then isValidGroupAux rest (n :: seen) else false

def isValidGroup (group : List Nat) : Bool :=
  isValidGroupAux group []

def rowList (cs : Cells) (row : Nat) : List Nat :=
  (List.range 9).map fun col => getCell cs row col

def colList (cs : Cells) (col : Nat) : List Nat :=
  (List.range 9).map fun row => getCell cs row col

def blockList (cs : Cells) (boxRow boxCol : Nat) : List Nat :=
  (List.range 3).flatMap fun i =>
    (List.range 3).map fun j => getCell cs (boxRow * 3 + i) (boxCol * 3 + j)

/-- Embeds `SudokuGrid::is_board_valid`: every row, column and 3x3 box is a
permutation of 1..9. -/
def isBoardValid (cs : Cells) : Bool :=
  ((List.range 9).all fun row => isValidGroup (rowList cs row)) &&
    ((List.range 9).all fun col => isValidGroup (colList cs col)) &&
      ((List.range 3).all fun boxRow =>
        (List.range 3).all fun boxCol => isValidGroup (blockList cs boxRow boxCol))

/-- Embeds `VariantContradiction` from `variant/error.rs`. -/
inductive VContra where
  | noPossibilities (cell : Cellpos) (variant : String) (reason : String)
  | inconsistent (variant : String) (reason : String)
  deriving DecidableEq, Repr

/-- Capability record for one variant instance, embedding the `Variant`
trait of `variant/mod.rs` together with the inherent three-argument
`get_possibilities` dispatched from `sudoku.rs` (the sources carry both
signatures).  Variant implementations read the grid only through
`get_cell`, so the operations take the cell array. -/
structure SVariant where
  isValidFn : Cells → Nat → Nat → Nat → Bool
  constrainedCellsFn : List Cellpos
  validateSolutionFn : Cells → Bool
  possibilitiesResultFn : Cells → Except VContra PossMap
  possibilitiesAtFn : Cells → Nat → Nat → PossMap

/-- Embeds `SudokuGrid` (the external-adapter fields are out of scope). -/
structure SudokuGrid where
  cells : Cells
  possibilities : PossMap
  variants : List SVariant

/-- Association-list lookup for candidate maps (`HashMap::get`). -/
def plookup (m : PossMap) (k : Cellpos) : Option (List Nat) :=
  match m with
  | [] => none
  | (k', v) :: rest => if k' = k then some v else plookup rest k

/-- In-place modification of an existing entry (`HashMap::get_mut` /
`entry(..).and_modify(..)`: absent keys are untouched). -/
def pmodify (m : PossMap) (k : Cellpos) (f : List Nat → List Nat) : PossMap :=
  match m with
  | [] => []
  | (k0, v) :: rest => (k0, if k0 = k then f v else v) :: pmodify rest k f

/-- Insert-or-overwrite (`*map.entry(k).or_insert(v0) = v`). -/
def psetEntry (m : PossMap) (k : Cellpos) (v : List Nat) : PossMap :=
  if (plookup m k).isSome then pmodify m k fun _ => v else m ++ [(k, v)]

/-- Embeds `SudokuGrid::update_possibilities`: after a placement, remove the
value from the candidates of the other cells of the row, the column and the
box, then intersect in the candidate maps of the variants constraining the
placed cell. -/
def gridUpdatePossibilities (g : SudokuGrid) (row col value : Nat) : SudokuGrid :=
  let m1 := (List.range 9).foldl
    (fun m c => if c ≠ col then pmodify m (row, c) (·.filter (· ≠ value)) else m)
    g.possibilities
  let m2 := (List.range 9).foldl
    (fun m r => if r ≠ row then pmodify m (r, col) (·.filter (· ≠ value)) else m) m1
  let boxRow := row / 3 * 3
  let boxCol := col / 3 * 3
  let m3 := (List.range 3).foldl
    (fun m i =>
      (List.range 3).foldl
        (fun m j =>
          if boxRow + i ≠ row ∨ boxCol + j ≠ col then
            pmodify m (boxRow + i, boxCol + j) (·.filter (· ≠ value))
          else m)
        m)
    m2
  let m4 := g.variants.foldl
    (fun m v =>
      if (row, col) ∈ v.constrainedCellsFn then
        (v.possibilitiesAtFn g.cells row col).foldl
          (fun m' e => pmodify m' e.1 (·.filter (e.2.contains ·))) m
      else m)
    m3
  { g with possibilities := m4 }

/-- Embeds `SudokuGrid::set_cell`: write the cell, reset its own candidate
entry (all digits for a clear, the singleton for a placement), then run
candidate maintenance. -/
def setCell (g : SudokuGrid) (row col value : Nat) : SudokuGrid :=
  let base : SudokuGrid :=
    { cells := writeCell g.cells row col value
      possibilities :=
        if value = 0 then psetEntry g.possibilities (row, col) allDigits
        else psetEntry g.possibilities (row, col) [value]
      variants := g.variants }
  gridUpdatePossibilities base row col value

/-! ## Solver engine (`solver.rs`) -/

/-- The 81 cell coordinates in the row-major order of the solver's loops. -/
def rowMajorCells : List Cellpos :=
  (List.range 9).flatMap fun r => (List.range 9).map fun c => (r, c)

/-- Intersects the candidate maps of the variants into one cell's candidate
list, propagating the first variant contradiction; the variant loop shared
by `Solver::get_all_possibilities` and `Solver::update_possibilities`. -/
def applyVariantFilters : List SVariant → Cells → Cellpos → List Nat →
    Except VContra (List Nat)
  | [], _, _, poss => .ok poss
  | v :: vs, cs, rc, poss =>
    match v.possibilitiesResultFn cs with
    | .error e => .error e
    | .ok varPoss =>
      applyVariantFilters vs cs rc
        (match plookup varPoss rc with
         | some varVals => poss.filter fun d => varVals.contains d
         | none => poss)

/-- Walks the given cells in order and collects, for each empty one, the
standard candidates intersected with every variant's candidates, failing at
the first cell left without a candidate. -/
def buildPossMap (g : SudokuGrid) : List Cellpos → Except VContra PossMap
  | [] => .ok []
  | rc :: rest =>
    if getCell g.cells rc.1 rc.2 = 0 then
      match applyVariantFilters g.variants g.cells rc (stdPossibilities g.cells rc.1 rc.2) with
      | .error e => .error e
      | .ok poss =>
        if poss = [] then
          .error (.noPossibilities rc "Solver" "No candidates after intersecting rules")
        else
          match buildPossMap g rest with
          | .error e => .error e
          | .ok m => .ok ((rc, poss) :: m)
    else buildPossMap g rest

/-- Embeds `Solver::get_all_possibilities`. -/
def solverGetAll (g : SudokuGrid) : Except VContra PossMap :=
  buildPossMap g rowMajorCells

/-- Embeds `Solver::update_possibilities`.  The Rust method walks all 81
cells of the existing map, inserting a freshly recomputed candidate list for
every empty cell and removing the entry of every filled cell, so its result
is fully determined by the grid and coincides with `get_all_possibilities`
(the `row`/`col` arguments are unused in the source as well). -/
def solverUpdateAll (g : SudokuGrid) : Except VContra PossMap :=
  buildPossMap g rowMajorCells

/-- Embeds `Solver::get_all_boxes`. -/
def getAllBoxes : List (List Cellpos) :=
  (List.range 3).flatMap fun br =>
    (List.range 3).map fun bc =>
      (List.range 3).flatMap fun dr =>
        (List.range 3).map fun dc => (br * 3 + dr, bc * 3 + dc)

/-- Embeds `Solver::get_all_units`: the 9 rows, then the 9 columns, then
the 9 boxes. -/
def getAllUnits : List (List Cellpos) :=
  ((List.range 9).map fun r => (List.range 9).map fun c => (r, c)) ++
    ((List.range 9).map fun c => (List.range 9).map fun r => (r, c)) ++
      getAllBoxes

/-- Lexicographic k-combinations, in the order `itertools::combinations`
produces them. -/
def combos {α : Type} : Nat → List α → List (List α)
  | 0, _ => [[]]
  | _ + 1, [] => []
  | n + 1, x :: xs => ((combos n xs).map (x :: ·)) ++ combos (n + 1) xs

/-- Embeds `Solver::apply_naked_subsets_to_unit`: the 2..4-candidate cells
of the unit are snapshotted, and every size-n combination whose candidate
union has exactly n digits removes those digits from the other cells of the
unit. -/
def applyNakedSubsetsToUnit (m : PossMap) (unit : List Cellpos) : PossMap :=
  let cellPoss :=
    (unit.filterMap fun rc => (plookup m rc).map fun poss => (rc, poss)).filter
      fun e => 2 ≤ e.2.length && e.2.length ≤ 4
  [2, 3, 4].foldl
    (fun m n =>
      (combos n cellPoss).foldl
        (fun m combo =>
          let comboCells := combo.map (·.1)
          let allCands := (combo.flatMap (·.2)).dedup
          if allCands.length = n then
            unit.foldl
              (fun m rc =>
                if comboCells.contains rc then m
                else pmodify m rc (·.filter fun v => !allCands.contains v))
              m
          else m)
        m)
    m

/-- Embeds `Solver::apply_naked_subsets`. -/
def applyNakedSubsets (m : PossMap) : PossMap :=
  getAllUnits.foldl applyNakedSubsetsToUnit m

/-- Embeds `Solver::remove_possibility_from_row`. -/
def removeFromRow (m : PossMap) (value row : Nat) (allowedCols : List Nat) : PossMap :=
  (List.range 9).foldl
    (fun m c => if allowedCols.contains c then m else pmodify m (row, c) (·.filter (· ≠ value)))
    m

/-- Embeds `Solver::remove_possibility_from_col`. -/
def removeFromCol (m : PossMap) (value col : Nat) (allowedRows : List Nat) : PossMap :=
  (List.range 9).foldl
    (fun m r => if allowedRows.contains r then m else pmodify m (r, col) (·.filter (· ≠ value)))
    m

/-- Embeds `Solver::apply_pointing_pairs`. -/
def applyPointingPairs (m : PossMap) : PossMap :=
  allDigits.foldl
    (fun m value =>
      getAllBoxes.foldl
        (fun m box =>
          let candidates :=
            (box.filterMap fun rc => (plookup m rc).map fun poss => (rc, poss)).filter
              fun e => e.2.contains value
          match candidates with
          | [] => m
          | c0 :: _ =>
            let allInOneRow := candidates.all fun e => e.1.1 = c0.1.1
            let allInOneCol := candidates.all fun e => e.1.2 = c0.1.2
            let m :=
              if allInOneRow then removeFromRow m value c0.1.1 (candidates.map (·.1.2))
              else m
            if allInOneCol then removeFromCol m value c0.1.2 (candidates.map (·.1.1))
            else m)
        m)
    m

/-- Embeds `Solver::apply_hidden_subsets_to_unit`: when the cells of the
unit admitting any digit of a size-n digit combination number exactly n and
each admits every digit of the combination, those cells' candidate lists
are replaced by the combination. -/
def applyHiddenSubsetsToUnit (m : PossMap) (unit : List Cellpos) (subsetSize : Nat) : PossMap :=
  (combos subsetSize allDigits).foldl
    (fun m combo =>
      let cellsWithCombo :=
        unit.filter fun rc =>
          match plookup m rc with
          | some poss => combo.any fun d => poss.contains d
          | none => false
      if cellsWithCombo.length = subsetSize &&
          cellsWithCombo.all (fun rc =>
            match plookup m rc with
            | some poss => combo.all fun d => poss.contains d
            | none => false) then
        cellsWithCombo.foldl (fun m rc => pmodify m rc fun _ => combo) m
      else m)
    m

/-- Embeds `Solver::apply_hidden_pairs` (pairs then triples, per unit). -/
def applyHiddenPairs (m : PossMap) : PossMap :=
  getAllUnits.foldl
    (fun m unit => applyHiddenSubsetsToUnit (applyHiddenSubsetsToUnit m unit 2) unit 3) m

/-- The three inference passes in the order `solve_recursive` applies them. -/
def applyPasses (m : PossMap) : PossMap :=
  applyHiddenPairs (applyPointingPairs (applyNakedSubsets m))

/-- Embeds the `NextCell` enum of `solver.rs`. -/
inductive NextCell where
  | cell (row col : Nat) (candidates : List Nat)
  | noEmptyCells
  | deadEnd
  deriving DecidableEq, Repr

/-- Embeds `Solver::find_most_constrained_cell`: any empty candidate list
means a dead end, otherwise the entry with the fewest candidates is chosen
(first in iteration order on ties; the embedding iterates in the map's list
order). -/
def findMostConstrainedCell (m : PossMap) : NextCell :=
  if m.any fun e => e.2 = [] then .deadEnd
  else
    match m.foldl
      (fun best e =>
        match best with
        | some (_, _, bestPoss) =>
          if e.2.length < List.length bestPoss then some (e.1.1, e.1.2, e.2) else best
        | none => if e.2.length < 10 then some (e.1.1, e.1.2, e.2) else best)
      none with
    | some (r, c, poss) => .cell r c poss
    | none => .noEmptyCells

/-- Embeds `Solver::validate_solution`: the classic board check plus every
variant's solution check. -/
def validateSolutionAll (g : SudokuGrid) : Bool :=
  isBoardValid g.cells && g.variants.all fun v => v.validateSolutionFn g.cells

/-- Embeds `Solver::solve`'s `max_steps`. -/
def maxSteps : Nat := 1000000

/-- The candidate loop of `solve_recursive`: place the digit, recompute the
candidate map, run the inference passes, recurse; on failure clear the cell
and continue with the next digit (the solver's own map snapshot is restored
in the source, which the recomputation makes observationally irrelevant, so
it is not threaded). -/
def tryCandidates (rec : SudokuGrid → PossMap → Nat → Bool × SudokuGrid × Nat)
    (row col : Nat) : SudokuGrid → Nat → List Nat → Bool × SudokuGrid × Nat
  | g, steps, [] => (false, g, steps)
  | g, steps, num :: rest =>
    let g1 := setCell g row col num
    match solverUpdateAll g1 with
    | .ok m1 =>
      let m2 := applyPasses m1
      let r := rec g1 m2 steps
      if r.1 then r
      else tryCandidates rec row col (setCell r.2.1 row col 0) r.2.2 rest
    | .error _ => tryCandidates rec row col (setCell g1 row col 0) steps rest

/-- Embeds `Solver::solve_recursive`.  The extra `gas` argument makes the
recursion structural: the source recursion terminates because every call
increments the shared step counter and any call entered with the counter
beyond `max_steps` returns immediately, so along any call chain the counter
strictly increases and the nesting depth never exceeds
`maxSteps + 2 - steps`.  `gas` is an upper bound on that depth, consumed
once per nested call; the exhausted-gas result is chosen equal to the
exceeded-budget result, and `solveRec_budget_increment_stable` below proves
the result is independent of the bound once it is large enough. -/
def solveRecAux : Nat → SudokuGrid → PossMap → Nat → Bool × SudokuGrid × Nat
  | 0, g, _, steps => (false, g, steps + 1)
  | gas + 1, g, m, steps =>
    let steps1 := steps + 1
    if maxSteps < steps1 then (false, g, steps1)
    else
      match findMostConstrainedCell m with
      | .cell row col candidates => tryCandidates (solveRecAux gas) row col g steps1 candidates
      | .noEmptyCells => (validateSolutionAll g, g, steps1)
      | .deadEnd => (false, g, steps1)

/-- Embeds the caller-visible composition `Solver::new` + `Solver::solve`:
a contradiction during initial propagation yields `false` with the grid
untouched, otherwise the recursive search runs with the step counter at 0. -/
def solverSolve (g : SudokuGrid) : Bool × SudokuGrid :=
  match solverGetAll g with
  | .error _ => (false, g)
  | .ok m =>
    let r := solveRecAux (maxSteps + 2) g m 0
    (r.1, r.2.1)

/-! ## Killer cages (`variant/misc/killer.rs`) -/

/-- Embeds the `KillerCage` struct (the precomputed `possible_values` cache
is derived data not used by `validate_solution`). -/
structure KillerCage where
  cells : List Cellpos
  total : Nat

/-- Embeds `KillerCage::validate_solution`: fail on the first empty cage
cell, otherwise compare the running sum with the target. -/
def killerValidateSolutionAux (cs : Cells) (total : Nat) : List Cellpos → Nat → Bool
  | [], sum => sum == total
  | rc :: rest, sum =>
    let v := getCell cs rc.1 rc.2
    if v = 0 then false else killerValidateSolutionAux cs total rest (sum + v)

def killerValidateSolution (k : KillerCage) (cs : Cells) : Bool :=
  killerValidateSolutionAux cs k.total k.cells 0

/-! ## Quadruple circles (`variant/misc/quadruple_circles.rs`) -/

/-- Embeds the `QuadrupleCircle` struct. -/
structure QuadrupleCircle where
  cells : List Cellpos
  required : List Nat
  isAnti : Bool

/-- The `cell_values` map of `QuadrupleCircle::get_possibilities` (a hash
map keyed by the circle's cells; keys deduplicated). -/
def quadCellValues (q : QuadrupleCircle) (cs : Cells) : List (Cellpos × Nat) :=
  q.cells.dedup.map fun rc => (rc, getCell cs rc.1 rc.2)

/-- The `known_digits_in_circle` list. -/
def quadKnown (q : QuadrupleCircle) (cs : Cells) : List Nat :=
  (quadCellValues q cs).filterMap fun e => if e.2 = 0 then none else some e.2

/-- The `empty_cell_count` value. -/
def quadEmptyCount (q : QuadrupleCircle) (cs : Cells) : Nat :=
  ((quadCellValues q cs).filter fun e => e.2 = 0).length

/-- The `missing_required_digits` list. -/
def quadMissing (q : QuadrupleCircle) (cs : Cells) : List Nat :=
  q.required.filter fun d => !(quadKnown q cs).contains d

/-- The `insert_possibilities` closure: filled circle cells map to the
singleton of their value, empty ones to the given list. -/
def quadInsert (q : QuadrupleCircle) (cs : Cells) (values : List Nat) : PossMap :=
  (quadCellValues q cs).map fun e => if e.2 ≠ 0 then (e.1, [e.2]) else (e.1, values)

/-- Embeds `QuadrupleCircle::get_possibilities`. -/
def quadGetPossibilities (q : QuadrupleCircle) (cs : Cells) : Except VContra PossMap :=
  if q.isAnti = false then
    if quadEmptyCount q cs < (quadMissing q cs).length then
      .error (.inconsistent "QuadrupleCircle" "Not enough empty cells to fill required digits")
    else if quadEmptyCount q cs = (quadMissing q cs).length then
      .ok (quadInsert q cs (quadMissing q cs))
    else .ok (quadInsert q cs allDigits)
  else
    if (quadKnown q cs).any fun v => q.required.contains v then
      .error (.inconsistent "Anti-QuadrupleCircle"
        "Circle contains value that anti-quadruple does not allow")
    else .ok (quadInsert q cs (allDigits.filter fun v => !q.required.contains v))

/-! ## Concrete instances used by witnesses and counterexamples -/

def zeroRow : List Nat := List.replicate 9 0

def zeroCells : Cells := List.replicate 9 zeroRow

/-- Variant-free grid with all cells empty and one candidate entry. -/
def gridG8 : SudokuGrid :=
  { cells := zeroCells, possibilities := [((0, 0), allDigits)], variants := [] }

/-- Variant-free grid: row 0 holds 1..8, cell (0,8) is empty. -/
def gridG3 : SudokuGrid :=
  { cells := [1, 2, 3, 4, 5, 6, 7, 8, 0] :: List.replicate 8 zeroRow
    possibilities := [((0, 8), [9])]
    variants := [] }

/-- Variant-free unsolvable grid: row 0 holds 1..7 with (0,7), (0,8)
empty, and (1,7) holds 8, which forces 9 into both (0,7) and (0,8). -/
def gridG2 : SudokuGrid :=
  { cells :=
      [1, 2, 3, 4, 5, 6, 7, 0, 0] :: [0, 0, 0, 0, 0, 0, 0, 8, 0] ::
        List.replicate 7 zeroRow
    possibilities := []
    variants := [] }

/-- Variant-free grid whose candidate map, after one run of the inference
passes, holds a hidden pair {6,7} at (0,7) and (0,8). -/
def gridG4 : SudokuGrid :=
  { cells :=
      [[1, 2, 3, 4, 5, 8, 0, 0, 0],
       zeroRow, zeroRow,
       [0, 0, 0, 0, 0, 0, 6, 0, 0],
       [0, 0, 0, 0, 0, 0, 7, 0, 0],
       zeroRow, zeroRow, zeroRow, zeroRow]
    possibilities := []
    variants := [] }

/-- Variant-free grid one placement away from a full valid board. -/
def gridGW : SudokuGrid :=
  { cells :=
      [[5, 8, 3, 2, 1, 9, 4, 6, 7],
       [9, 1, 4, 6, 3, 7, 8, 2, 5],
       [2, 7, 6, 8, 5, 4, 1, 3, 9],
       [3, 4, 9, 7, 2, 1, 5, 8, 6],
       [7, 2, 8, 9, 6, 5, 3, 4, 1],
       [6, 5, 1, 3, 4, 8, 7, 9, 2],
       [4, 9, 7, 5, 8, 2, 6, 1, 3],
       [1, 6, 5, 4, 9, 3, 2, 7, 8],
       [8, 3, 2, 1, 7, 6, 9, 5, 0]]
    possibilities := []
    variants := [] }

/-- Extracts the map of an `ok` result (used only on results proven `ok`). -/
def okPoss : Except VContra PossMap → PossMap
  | .ok m => m
  | .error _ => []


/-- The per-unit step of `apply_hidden_pairs`: hidden pairs then hidden
triples on one unit. -/
def hiddenStep (m : PossMap) (unit : List Cellpos) : PossMap :=
  applyHiddenSubsetsToUnit (applyHiddenSubsetsToUnit m unit 2) unit 3

/-- Variant-free grid seven placements away from a full board; its solver
map after the passes places 9 at (1,0) next. -/
def gridGP : SudokuGrid :=
  { cells :=
      [[5, 8, 3, 2, 1, 9, 4, 6, 7],
       [0, 1, 0, 6, 3, 7, 8, 0, 5],
       [0, 7, 6, 8, 5, 4, 1, 3, 0],
       [3, 4, 9, 7, 2, 1, 5, 8, 6],
       [7, 2, 8, 9, 6, 5, 3, 4, 1],
       [6, 5, 1, 3, 4, 8, 7, 9, 2],
       [4, 9, 7, 5, 8, 2, 6, 1, 3],
       [1, 6, 5, 4, 9, 3, 2, 7, 8],
       [0, 3, 0, 1, 7, 6, 9, 5, 4]]
    possibilities := []
    variants := [] }

/-- Variant-free grid five placements away from a full board, on which the
inference passes are not idempotent. -/
def gridGQ : SudokuGrid :=
  { cells :=
      [[5, 8, 3, 2, 1, 9, 4, 6, 7],
       [9, 1, 4, 6, 3, 7, 8, 2, 5],
       [0, 7, 0, 8, 5, 4, 1, 3, 9],
       [3, 4, 9, 7, 2, 1, 5, 8, 6],
       [7, 2, 8, 9, 6, 5, 3, 4, 1],
       [0, 5, 1, 3, 4, 8, 7, 9, 2],
       [4, 9, 7, 5, 8, 2, 6, 1, 3],
       [1, 0, 0, 4, 9, 3, 2, 7, 8],
       [8, 3, 2, 1, 7, 6, 9, 5, 4]]
    possibilities := []
    variants := [] }

/-- Candidate map `Solver::update_possibilities` computes on `gridGP`. -/
def mPA : PossMap := [((1, 0), [2, 9]), ((1, 2), [2, 4]), ((1, 7), [2]), ((2, 0), [2, 9]), ((2, 8), [9]), ((8, 0), [2, 8]), ((8, 2), [2])]

/-- Candidate map recomputed after placing 9 at (1,0) on `gridGP`. -/
def mPB : PossMap := [((1, 2), [2, 4]), ((1, 7), [2]), ((2, 0), [2]), ((2, 8), [9]), ((8, 0), [2, 8]), ((8, 2), [2])]

/-- Candidate map `Solver::get_all_possibilities` computes on `gridGQ`. -/
def mQA : PossMap := [((2, 0), [2, 6]), ((2, 2), [6]), ((5, 0), [6]), ((7, 1), [6]), ((7, 2), [5, 6])]

/-- `applyPasses mQA`, the candidate map after one run of the passes. -/
def mQ1 : PossMap := [((2, 0), [2]), ((2, 2), [6]), ((5, 0), [6]), ((7, 1), [6]), ((7, 2), [5, 6])]

/-- Board whose first row holds two fives, summing to 10 on the first two
cells. -/
def cellsK : Cells := [5, 5, 0, 0, 0, 0, 0, 0, 0] :: List.replicate 8 zeroRow

/-- A normal quadruple circle on the four cells around the (1,1)-(2,2)
corner, requiring a 5. -/
def qW : QuadrupleCircle :=
  { cells := [(1, 1), (1, 2), (2, 1), (2, 2)], required := [5], isAnti := false }

/-- Board with a single 5 placed at (1,1). -/
def csW : Cells := zeroRow :: [0, 5, 0, 0, 0, 0, 0, 0, 0] :: List.replicate 7 zeroRow

/-- The candidate map `QuadrupleCircle::get_possibilities` returns for `qW`
on `csW`. -/
def mWq : PossMap :=
  [((1, 1), [5]), ((1, 2), allDigits), ((2, 1), allDigits), ((2, 2), allDigits)]

/-! ## Association-list lemmas -/

theorem plookup_pmodify (m : PossMap) (k k' : Cellpos) (f : List Nat → List Nat) :
    plookup (pmodify m k f) k' =
      if k' = k then (plookup m k).map f else plookup m k' := by
  induction m with
  | nil => simp [plookup, pmodify]
  | cons e rest ih =>
    obtain ⟨k0, v⟩ := e
    by_cases h0 : k0 = k
    · subst h0
      by_cases h1 : k0 = k'
      · subst h1; simp [plookup, pmodify]
      · have h2 : ¬k' = k0 := fun h => h1 h.symm
        simp [plookup, pmodify, h1, h2, ih]
    · by_cases h1 : k0 = k'
      · subst h1
        have h2 : ¬k0 = k := h0
        simp [plookup, pmodify, h0, h2, fun h => h0 (h : k0 = k)]
      · simp [plookup, pmodify, h0, h1, ih]

theorem plookup_pmodify_isSome (m : PossMap) (k k' : Cellpos) (f : List Nat → List Nat) :
    (plookup (pmodify m k f) k').isSome = (plookup m k').isSome := by
  rw [plookup_pmodify]
  by_cases h : k' = k <;> simp [h, Option.isSome_map]

/-- Pointwise domination of candidate maps: every entry of the first map is
present in the second with a superset candidate list. -/
def possLe (m1 m2 : PossMap) : Prop :=
  ∀ k l1, plookup m1 k = some l1 → ∃ l2, plookup m2 k = some l2 ∧ l1 ⊆ l2

theorem possLe_refl (m : PossMap) : possLe m m :=
  fun _ l1 h => ⟨l1, h, List.Subset.refl l1⟩

theorem possLe_trans {m1 m2 m3 : PossMap} (h12 : possLe m1 m2) (h23 : possLe m2 m3) :
    possLe m1 m3 := by
  intro k l1 h1
  obtain ⟨l2, h2, s12⟩ := h12 k l1 h1
  obtain ⟨l3, h3, s23⟩ := h23 k l2 h2
  exact ⟨l3, h3, List.Subset.trans s12 s23⟩

theorem possLe_pmodify (m : PossMap) (k : Cellpos) (f : List Nat → List Nat)
    (hf : ∀ p, plookup m k = some p → f p ⊆ p) :
    possLe (pmodify m k f) m := by
  intro k' l1 h1
  rw [plookup_pmodify] at h1
  by_cases h : k' = k
  · subst h
    rw [if_pos rfl] at h1
    cases hmk : plookup m k' with
    | none => rw [hmk] at h1; exact absurd h1 (by simp)
    | some p =>
      rw [hmk] at h1
      have h1s : f p = l1 := by simpa using h1
      refine ⟨p, rfl, ?_⟩
      rw [← h1s]
      exact hf p hmk
  · rw [if_neg h] at h1
    exact ⟨l1, h1, List.Subset.refl l1⟩

theorem possLe_pmodify_filter (m : PossMap) (k : Cellpos) (p : Nat → Bool) :
    possLe (pmodify m k (·.filter p)) m :=
  possLe_pmodify m k _ fun _ _ x hx => (List.mem_filter.mp hx).1

theorem possLe_foldl {α : Type} (step : PossMap → α → PossMap) (l : List α)
    (h : ∀ m x, possLe (step m x) m) : ∀ m, possLe (l.foldl step m) m := by
  induction l with
  | nil => intro m; exact possLe_refl m
  | cons x xs ih =>
    intro m
    simpa using possLe_trans (ih (step m x)) (h m x)

/-! ## The inference passes only shrink candidate lists -/

theorem contains_subset {combo poss : List Nat}
    (h : combo.all (fun d => poss.contains d) = true) : combo ⊆ poss := by
  intro d hd
  have := List.all_eq_true.mp h d hd
  simpa using this

theorem possLe_naked_unit (m : PossMap) (unit : List Cellpos) :
    possLe (applyNakedSubsetsToUnit m unit) m := by
  unfold applyNakedSubsetsToUnit
  refine possLe_foldl _ _ (fun m n => ?_) m
  refine possLe_foldl _ _ (fun m combo => ?_) m
  dsimp only
  split
  · refine possLe_foldl _ _ (fun m rc => ?_) m
    split
    · exact possLe_refl m
    · exact possLe_pmodify_filter m rc _
  · exact possLe_refl m

theorem possLe_applyNakedSubsets (m : PossMap) : possLe (applyNakedSubsets m) m :=
  possLe_foldl _ _ possLe_naked_unit m

theorem possLe_removeFromRow (m : PossMap) (value row : Nat) (cols : List Nat) :
    possLe (removeFromRow m value row cols) m := by
  refine possLe_foldl _ _ (fun m c => ?_) m
  dsimp only
  split
  · exact possLe_refl m
  · exact possLe_pmodify_filter m _ _

theorem possLe_removeFromCol (m : PossMap) (value col : Nat) (rows : List Nat) :
    possLe (removeFromCol m value col rows) m := by
  refine possLe_foldl _ _ (fun m r => ?_) m
  dsimp only
  split
  · exact possLe_refl m
  · exact possLe_pmodify_filter m _ _

theorem possLe_applyPointingPairs (m : PossMap) : possLe (applyPointingPairs m) m := by
  unfold applyPointingPairs
  refine possLe_foldl _ _ (fun m value => ?_) m
  refine possLe_foldl _ _ (fun m box => ?_) m
  dsimp only
  split
  · exact possLe_refl m
  · split
    · refine possLe_trans (possLe_removeFromCol _ _ _ _) ?_
      split
      · exact possLe_removeFromRow _ _ _ _
      · exact possLe_refl m
    · split
      · exact possLe_removeFromRow _ _ _ _
      · exact possLe_refl m

theorem possLe_assignCombo (combo : List Nat) :
    ∀ (l : List Cellpos) (m : PossMap),
      (∀ rc ∈ l, ∀ p, plookup m rc = some p → combo ⊆ p) →
      possLe (l.foldl (fun m rc => pmodify m rc fun _ => combo) m) m := by
  intro l
  induction l with
  | nil => intro m _; exact possLe_refl m
  | cons rc rest ih =>
    intro m hinv
    simp only [List.foldl_cons]
    have hstep : possLe (pmodify m rc fun _ => combo) m :=
      possLe_pmodify m rc _ fun p hp => hinv rc (List.mem_cons_self rc rest) p hp
    have hinv' : ∀ rc' ∈ rest, ∀ p,
        plookup (pmodify m rc fun _ => combo) rc' = some p → combo ⊆ p := by
      intro rc' hrc' p hp
      rw [plookup_pmodify] at hp
      by_cases h : rc' = rc
      · rw [if_pos h] at hp
        cases hmk : plookup m rc with
        | none => rw [hmk] at hp; exact absurd hp (by simp)
        | some q =>
          rw [hmk] at hp
          have hcp : combo = p := by simpa using hp
          rw [← hcp]
          exact List.Subset.refl combo
      · rw [if_neg h] at hp
        exact hinv rc' (List.mem_cons_of_mem _ hrc') p hp
    exact possLe_trans (ih _ hinv') hstep

theorem possLe_hidden_unit (m : PossMap) (unit : List Cellpos) (size : Nat) :
    possLe (applyHiddenSubsetsToUnit m unit size) m := by
  unfold applyHiddenSubsetsToUnit
  refine possLe_foldl _ _ (fun m combo => ?_) m
  dsimp only
  split
  · rename_i hcond
    refine possLe_assignCombo _ _ m ?_
    intro rc hrc p hp
    have hall := ((Bool.and_eq_true _ _).mp hcond).2
    have := List.all_eq_true.mp hall rc hrc
    rw [hp] at this
    exact contains_subset this
  · exact possLe_refl m

theorem possLe_applyHiddenPairs (m : PossMap) : possLe (applyHiddenPairs m) m := by
  refine possLe_foldl _ _ (fun m unit => ?_) m
  exact possLe_trans (possLe_hidden_unit _ _ _) (possLe_hidden_unit _ _ _)

/-- One run of the three inference passes never enlarges any candidate
list. -/
theorem possLe_applyPasses (m : PossMap) : possLe (applyPasses m) m :=
  possLe_trans (possLe_applyHiddenPairs _)
    (possLe_trans (possLe_applyPointingPairs _) (possLe_applyNakedSubsets m))

/-! ## The inference passes preserve the key set of the candidate map -/

def keysSame (m1 m2 : PossMap) : Prop :=
  ∀ k, (plookup m1 k).isSome = (plookup m2 k).isSome

theorem keysSame_refl (m : PossMap) : keysSame m m := fun _ => rfl

theorem keysSame_trans {m1 m2 m3 : PossMap} (h12 : keysSame m1 m2) (h23 : keysSame m2 m3) :
    keysSame m1 m3 := fun k => (h12 k).trans (h23 k)

theorem keysSame_pmodify (m : PossMap) (k : Cellpos) (f : List Nat → List Nat) :
    keysSame (pmodify m k f) m := fun k' => plookup_pmodify_isSome m k k' f

theorem keysSame_foldl {α : Type} (step : PossMap → α → PossMap) (l : List α)
    (h : ∀ m x, keysSame (step m x) m) : ∀ m, keysSame (l.foldl step m) m := by
  induction l with
  | nil => intro m; exact keysSame_refl m
  | cons x xs ih =>
    intro m
    simpa using keysSame_trans (ih (step m x)) (h m x)

theorem keysSame_ite (c : Prop) [Decidable c] (m1 m2 m : PossMap)
    (h1 : keysSame m1 m) (h2 : keysSame m2 m) : keysSame (if c then m1 else m2) m := by
  split
  · exact h1
  · exact h2

theorem keysSame_naked_unit (m : PossMap) (unit : List Cellpos) :
    keysSame (applyNakedSubsetsToUnit m unit) m := by
  unfold applyNakedSubsetsToUnit
  refine keysSame_foldl _ _ (fun m n => ?_) m
  refine keysSame_foldl _ _ (fun m combo => ?_) m
  dsimp only
  split
  · refine keysSame_foldl _ _ (fun m rc => ?_) m
    split
    · exact keysSame_refl m
    · exact keysSame_pmodify m rc _
  · exact keysSame_refl m

theorem keysSame_applyNakedSubsets (m : PossMap) : keysSame (applyNakedSubsets m) m :=
  keysSame_foldl _ _ keysSame_naked_unit m

theorem keysSame_removeFromRow (m : PossMap) (value row : Nat) (cols : List Nat) :
    keysSame (removeFromRow m value row cols) m := by
  refine keysSame_foldl _ _ (fun m c => ?_) m
  dsimp only
  split
  · exact keysSame_refl m
  · exact keysSame_pmodify m _ _

theorem keysSame_removeFromCol (m : PossMap) (value col : Nat) (rows : List Nat) :
    keysSame (removeFromCol m value col rows) m := by
  refine keysSame_foldl _ _ (fun m r => ?_) m
  dsimp only
  split
  · exact keysSame_refl m
  · exact keysSame_pmodify m _ _

theorem keysSame_applyPointingPairs (m : PossMap) : keysSame (applyPointingPairs m) m := by
  unfold applyPointingPairs
  refine keysSame_foldl _ _ (fun m value => ?_) m
  refine keysSame_foldl _ _ (fun m box => ?_) m
  dsimp only
  split
  · exact keysSame_refl m
  · split
    · refine keysSame_trans (keysSame_removeFromCol _ _ _ _) ?_
      split
      · exact keysSame_removeFromRow _ _ _ _
      · exact keysSame_refl m
    · split
      · exact keysSame_removeFromRow _ _ _ _
      · exact keysSame_refl m

theorem keysSame_hidden_unit (m : PossMap) (unit : List Cellpos) (size : Nat) :
    keysSame (applyHiddenSubsetsToUnit m unit size) m := by
  unfold applyHiddenSubsetsToUnit
  refine keysSame_foldl _ _ (fun m combo => ?_) m
  dsimp only
  split
  · refine keysSame_foldl _ _ (fun m rc => ?_) m
    exact keysSame_pmodify m rc _
  · exact keysSame_refl m

theorem keysSame_applyHiddenPairs (m : PossMap) : keysSame (applyHiddenPairs m) m := by
  refine keysSame_foldl _ _ (fun m unit => ?_) m
  exact keysSame_trans (keysSame_hidden_unit _ _ _) (keysSame_hidden_unit _ _ _)

/-- The three inference passes neither add nor drop candidate-map entries. -/
theorem keysSame_applyPasses (m : PossMap) : keysSame (applyPasses m) m :=
  keysSame_trans (keysSame_applyHiddenPairs _)
    (keysSame_trans (keysSame_applyPointingPairs _) (keysSame_applyNakedSubsets m))

/-! ## Characterization of the solver's candidate-map construction -/

theorem buildPossMap_ok_isSome (g : SudokuGrid) :
    ∀ (l : List Cellpos) (m : PossMap), buildPossMap g l = .ok m →
      ∀ rc, (plookup m rc).isSome = true ↔ (rc ∈ l ∧ getCell g.cells rc.1 rc.2 = 0) := by
  intro l
  induction l with
  | nil =>
    intro m h rc
    simp only [buildPossMap] at h
    cases h
    simp [plookup]
  | cons rc0 rest ih =>
    intro m h rc
    simp only [buildPossMap] at h
    split at h
    · rename_i h0
      split at h
      · cases h
      · rename_i poss hvf
        split at h
        · cases h
        · rename_i hne
          split at h
          · cases h
          · rename_i m' hr
            cases h
            by_cases hrc : rc0 = rc
            · subst hrc
              simp only [plookup, if_pos rfl]
              exact ⟨fun _ => ⟨List.mem_cons_self rc0 rest, h0⟩, fun _ => rfl⟩
            · simp only [plookup, if_neg hrc]
              constructor
              · intro hs
                obtain ⟨hmem, he⟩ := (ih m' hr rc).mp hs
                exact ⟨List.mem_cons_of_mem _ hmem, he⟩
              · rintro ⟨hmem, he⟩
                rcases List.mem_cons.mp hmem with h1 | hmem'
                · exact absurd h1.symm hrc
                · exact (ih m' hr rc).mpr ⟨hmem', he⟩
    · rename_i h0
      constructor
      · intro hs
        obtain ⟨hmem, he⟩ := (ih m h rc).mp hs
        exact ⟨List.mem_cons_of_mem _ hmem, he⟩
      · rintro ⟨hmem, he⟩
        rcases List.mem_cons.mp hmem with h1 | hmem'
        · subst h1; exact absurd he h0
        · exact (ih m h rc).mpr ⟨hmem', he⟩

theorem buildPossMap_ok_nonempty (g : SudokuGrid) :
    ∀ (l : List Cellpos) (m : PossMap), buildPossMap g l = .ok m →
      ∀ rc p, plookup m rc = some p → p ≠ [] := by
  intro l
  induction l with
  | nil =>
    intro m h rc p hp
    simp only [buildPossMap] at h
    cases h
    simp [plookup] at hp
  | cons rc0 rest ih =>
    intro m h rc p hp
    simp only [buildPossMap] at h
    split at h
    · split at h
      · cases h
      · rename_i poss hvf
        split at h
        · cases h
        · rename_i hne
          split at h
          · cases h
          · rename_i m' hr
            cases h
            simp only [plookup] at hp
            by_cases hrc : rc0 = rc
            · rw [if_pos hrc] at hp
              cases hp
              exact hne
            · rw [if_neg hrc] at hp
              exact ih m' hr rc p hp
    · exact ih m h rc p hp

theorem buildPossMap_novariant_lookup (g : SudokuGrid) (hv : g.variants = []) :
    ∀ (l : List Cellpos) (m : PossMap), buildPossMap g l = .ok m →
      ∀ rc p, plookup m rc = some p →
        getCell g.cells rc.1 rc.2 = 0 ∧ p = stdPossibilities g.cells rc.1 rc.2 := by
  intro l
  induction l with
  | nil =>
    intro m h rc p hp
    simp only [buildPossMap] at h
    cases h
    simp [plookup] at hp
  | cons rc0 rest ih =>
    intro m h rc p hp
    simp only [buildPossMap] at h
    split at h
    · rename_i h0
      split at h
      · cases h
      · rename_i poss hvf
        rw [hv] at hvf
        simp only [applyVariantFilters] at hvf
        split at h
        · cases h
        · split at h
          · cases h
          · rename_i m' hr
            cases h
            cases hvf
            simp only [plookup] at hp
            by_cases hrc : rc0 = rc
            · rw [if_pos hrc] at hp
              cases hp
              exact ⟨hrc ▸ h0, hrc ▸ rfl⟩
            · rw [if_neg hrc] at hp
              exact ih m' hr rc p hp
    · exact ih m h rc p hp

/-! ## Cell-array lemmas -/

theorem list_set_out {α : Type} : ∀ (l : List α) (n : Nat) (a : α),
    l.length ≤ n → l.set n a = l := by
  intro l
  induction l with
  | nil => intro n a _; rfl
  | cons x xs ih =>
    intro n a h
    cases n with
    | zero => simp at h
    | succ n => simp only [List.set_cons_succ]; rw [ih n a (by simpa using h)]

theorem list_getD_set_self {α : Type} : ∀ (l : List α) (n : Nat) (a d : α),
    n < l.length → (l.set n a).getD n d = a := by
  intro l
  induction l with
  | nil => intro n a d h; simp at h
  | cons x xs ih =>
    intro n a d h
    cases n with
    | zero => rfl
    | succ n => simpa using ih n a d (by simpa using h)

theorem list_set_getD_self {α : Type} : ∀ (l : List α) (n : Nat) (d : α),
    l.set n (l.getD n d) = l := by
  intro l
  induction l with
  | nil => intro n d; rfl
  | cons x xs ih =>
    intro n d
    cases n with
    | zero => rfl
    | succ n => simpa using ih n d

theorem writeCell_writeCell (cs : Cells) (r c v w : Nat) :
    writeCell (writeCell cs r c v) r c w = writeCell cs r c w := by
  by_cases hr : r < cs.length
  · unfold writeCell
    rw [list_getD_set_self cs r _ [] hr, List.set_set, List.set_set]
  · have h1 : writeCell cs r c v = cs := by
      unfold writeCell
      exact list_set_out cs r _ (Nat.le_of_not_lt hr)
    rw [h1]

theorem writeCell_zero (cs : Cells) (r c : Nat) (h : getCell cs r c = 0) :
    writeCell cs r c 0 = cs := by
  unfold writeCell
  have hrow : (cs.getD r []).set c 0 = cs.getD r [] := by
    have := list_set_getD_self (cs.getD r []) c 0
    rw [show ((cs.getD r []).getD c 0) = 0 from h] at this
    exact this
  rw [hrow]
  exact list_set_getD_self cs r []

theorem setCell_cells (g : SudokuGrid) (row col value : Nat) :
    (setCell g row col value).cells = writeCell g.cells row col value := rfl

theorem setCell_variants (g : SudokuGrid) (row col value : Nat) :
    (setCell g row col value).variants = g.variants := rfl

/-! ## A valid board is fully assigned -/

theorem isValidGroupAux_mem : ∀ (l seen : List Nat), isValidGroupAux l seen = true →
    ∀ x ∈ l, 1 ≤ x ∧ x ≤ 9 := by
  intro l
  induction l with
  | nil => intro seen _ x hx; cases hx
  | cons n rest ih =>
    intro seen h x hx
    simp only [isValidGroupAux] at h
    split at h
    · rename_i hcond
      rcases List.mem_cons.mp hx with rfl | hx'
      · have h1 := (Bool.and_eq_true _ _).mp hcond
        have h2 := (Bool.and_eq_true _ _).mp h1.1
        exact ⟨by simpa using h2.1, by simpa using h2.2⟩
      · exact ih (n :: seen) h x hx'
    · cases h

theorem isBoardValid_nonzero (cs : Cells) (h : isBoardValid cs = true) :
    ∀ r c, r < 9 → c < 9 → getCell cs r c ≠ 0 := by
  intro r c hr hc
  have hrows := ((Bool.and_eq_true _ _).mp ((Bool.and_eq_true _ _).mp h).1).1
  have hrow := List.all_eq_true.mp hrows r (by simpa using hr)
  have hmem : getCell cs r c ∈ rowList cs r :=
    List.mem_map.mpr ⟨c, by simpa using hc, rfl⟩
  have := isValidGroupAux_mem (rowList cs r) [] hrow (getCell cs r c) hmem
  omega

/-! ## Soundness of the recursive search -/

theorem tryCandidates_sound
    (rec : SudokuGrid → PossMap → Nat → Bool × SudokuGrid × Nat)
    (hrec : ∀ g m s b g' s', rec g m s = (b, g', s') → b = true →
      validateSolutionAll g' = true)
    (row col : Nat) :
    ∀ (cands : List Nat) (g : SudokuGrid) (s : Nat) (b : Bool) (g' : SudokuGrid) (s' : Nat),
      tryCandidates rec row col g s cands = (b, g', s') → b = true →
      validateSolutionAll g' = true := by
  intro cands
  induction cands with
  | nil =>
    intro g s b g' s' h hb
    simp only [tryCandidates] at h
    cases h
    cases hb
  | cons num rest ih =>
    intro g s b g' s' h hb
    simp only [tryCandidates] at h
    split at h
    · rename_i m1 hup
      split at h
      · exact hrec _ _ _ b g' s' h hb
      · exact ih _ _ b g' s' h hb
    · exact ih _ _ b g' s' h hb

theorem solveRec_sound :
    ∀ (gas : Nat) (g : SudokuGrid) (m : PossMap) (s : Nat) (b : Bool) (g' : SudokuGrid)
      (s' : Nat), solveRecAux gas g m s = (b, g', s') → b = true →
      validateSolutionAll g' = true := by
  intro gas
  induction gas with
  | zero =>
    intro g m s b g' s' h hb
    simp only [solveRecAux] at h
    cases h
    cases hb
  | succ gas ih =>
    intro g m s b g' s' h hb
    simp only [solveRecAux] at h
    split at h
    · cases h; cases hb
    · split at h
      · exact tryCandidates_sound (solveRecAux gas) ih _ _ _ _ _ b g' s' h hb
      · cases h
        exact hb
      · cases h; cases hb

/-! ## Cells restoration on a failed search -/

/-- Keys of a successful solver map recomputation, after the passes, are
empty cells of the grid. -/
theorem updateAll_passes_keys (g : SudokuGrid) (m1 : PossMap)
    (h : solverUpdateAll g = .ok m1) :
    ∀ r c, (plookup (applyPasses m1) (r, c)).isSome = true → getCell g.cells r c = 0 := by
  intro r c hs
  rw [keysSame_applyPasses m1 (r, c)] at hs
  exact ((buildPossMap_ok_isSome g rowMajorCells m1 h (r, c)).mp hs).2

theorem tryCandidates_cells
    (rec : SudokuGrid → PossMap → Nat → Bool × SudokuGrid × Nat)
    (hrec : ∀ g2 m2 s2 b g' s',
      (∀ r c, (plookup m2 (r, c)).isSome = true → getCell g2.cells r c = 0) →
      rec g2 m2 s2 = (b, g', s') → b = false → g'.cells = g2.cells)
    (row col : Nat) :
    ∀ (cands : List Nat) (g : SudokuGrid) (s : Nat) (b : Bool) (g' : SudokuGrid) (s' : Nat),
      getCell g.cells row col = 0 →
      tryCandidates rec row col g s cands = (b, g', s') → b = false →
      g'.cells = g.cells := by
  intro cands
  induction cands with
  | nil =>
    intro g s b g' s' _ h _
    simp only [tryCandidates] at h
    cases h
    rfl
  | cons num rest ih =>
    intro g s b g' s' hempty h hb
    simp only [tryCandidates] at h
    split at h
    · rename_i m1 hup
      split at h
      · rename_i htrue
        rw [h] at htrue
        simp only at htrue
        rw [htrue] at hb
        cases hb
      · rename_i hfalse
        set r2 := rec (setCell g row col num) (applyPasses m1) s with hr2
        have hb2 : r2.1 = false := by
          cases hx : r2.1
          · rfl
          · exact absurd hx hfalse
        have hc2 : r2.2.1.cells = (setCell g row col num).cells := by
          refine hrec (setCell g row col num) (applyPasses m1) s r2.1 r2.2.1 r2.2.2
            (updateAll_passes_keys _ m1 hup) ?_ hb2
          rfl
        have hc3 : (setCell r2.2.1 row col 0).cells = g.cells := by
          rw [setCell_cells, hc2, setCell_cells, writeCell_writeCell]
          exact writeCell_zero g.cells row col hempty
        have hempty3 : getCell (setCell r2.2.1 row col 0).cells row col = 0 := by
          rw [hc3]; exact hempty
        have := ih (setCell r2.2.1 row col 0) r2.2.2 b g' s' hempty3 h hb
        rw [this, hc3]
    · have hc3 : (setCell (setCell g row col num) row col 0).cells = g.cells := by
        rw [setCell_cells, setCell_cells, writeCell_writeCell]
        exact writeCell_zero g.cells row col hempty
      have hempty3 : getCell (setCell (setCell g row col num) row col 0).cells row col = 0 := by
        rw [hc3]; exact hempty
      have := ih _ s b g' s' hempty3 h hb
      rw [this, hc3]

/-- Entries found by `find_most_constrained_cell` come from the map. -/
theorem mem_plookup_isSome : ∀ (m : PossMap) (k : Cellpos) (p : List Nat),
    (k, p) ∈ m → (plookup m k).isSome = true := by
  intro m k p h
  induction m with
  | nil => cases h
  | cons e rest ihm =>
    rcases List.mem_cons.mp h with rfl | hmem'
    · simp [plookup]
    · simp only [plookup]
      split
      · rfl
      · exact ihm hmem'

theorem findMost_cell_key (m : PossMap) (r c : Nat) (p : List Nat)
    (h : findMostConstrainedCell m = .cell r c p) :
    (plookup m (r, c)).isSome = true := by
  unfold findMostConstrainedCell at h
  split at h
  · cases h
  · split at h
    · rename_i best r0 c0 p0 hfold
      cases h
      have hmem : ((r, c), p) ∈ m := by
        have aux : ∀ (l : List (Cellpos × List Nat)) (acc : Option (Nat × Nat × List Nat)),
            l.foldl (fun best e =>
              match best with
              | some (br, bc, bestPoss) =>
                if e.2.length < List.length bestPoss then some (e.1.1, e.1.2, e.2) else best
              | none => if e.2.length < 10 then some (e.1.1, e.1.2, e.2) else best) acc =
              some (r, c, p) →
            acc = some (r, c, p) ∨ ((r, c), p) ∈ l := by
          intro l
          induction l with
          | nil => intro acc ha; exact Or.inl ha
          | cons e rest ihl =>
            intro acc ha
            rcases ihl _ ha with hstep | hmem
            · revert hstep
              dsimp only
              split
              · split
                · intro hstep
                  right
                  cases hstep
                  exact List.mem_cons_self _ _
                · intro hstep; exact Or.inl hstep
              · split
                · intro hstep
                  right
                  cases hstep
                  exact List.mem_cons_self _ _
                · intro hstep; cases hstep
            · exact Or.inr (List.mem_cons_of_mem _ hmem)
        rcases aux m none hfold with hnone | hmem
        · cases hnone
        · exact hmem
      exact mem_plookup_isSome m (r, c) p hmem
    · cases h

theorem solveRec_cells :
    ∀ (gas : Nat) (g : SudokuGrid) (m : PossMap) (s : Nat) (b : Bool) (g' : SudokuGrid)
      (s' : Nat),
      (∀ r c, (plookup m (r, c)).isSome = true → getCell g.cells r c = 0) →
      solveRecAux gas g m s = (b, g', s') → b = false → g'.cells = g.cells := by
  intro gas
  induction gas with
  | zero =>
    intro g m s b g' s' _ h _
    simp only [solveRecAux] at h
    cases h
    rfl
  | succ gas ih =>
    intro g m s b g' s' hkeys h hb
    simp only [solveRecAux] at h
    split at h
    · cases h; rfl
    · split at h
      · rename_i row col cands hfind
        have hempty : getCell g.cells row col = 0 :=
          hkeys row col (findMost_cell_key m row col cands hfind)
        exact tryCandidates_cells (solveRecAux gas) ih row col cands g _ b g' s' hempty h hb
      · cases h; rfl
      · cases h; rfl

/-! ## Step counter and budget behaviour of the search -/

theorem tryCandidates_steps
    (rec : SudokuGrid → PossMap → Nat → Bool × SudokuGrid × Nat)
    (hrec : ∀ g m s, s + 1 ≤ (rec g m s).2.2) (row col : Nat) :
    ∀ (cands : List Nat) (g : SudokuGrid) (s : Nat),
      s ≤ (tryCandidates rec row col g s cands).2.2 := by
  intro cands
  induction cands with
  | nil => intro g s; simp [tryCandidates]
  | cons num rest ih =>
    intro g s
    simp only [tryCandidates]
    split
    · rename_i m1 hup
      split
      · exact Nat.le_trans (Nat.le_succ s) (hrec _ _ s)
      · refine Nat.le_trans ?_ (ih _ _)
        exact Nat.le_trans (Nat.le_succ s) (hrec _ _ s)
    · exact ih _ s

theorem solveRec_steps :
    ∀ (gas : Nat) (g : SudokuGrid) (m : PossMap) (s : Nat),
      s + 1 ≤ (solveRecAux gas g m s).2.2 := by
  intro gas
  induction gas with
  | zero => intro g m s; simp [solveRecAux]
  | succ gas ih =>
    intro g m s
    simp only [solveRecAux]
    split
    · exact Nat.le_refl _
    · split
      · exact tryCandidates_steps (solveRecAux gas) ih _ _ _ _ _
      · exact Nat.le_refl _
      · exact Nat.le_refl _

theorem solveRec_budget (gas : Nat) (g : SudokuGrid) (m : PossMap) (s : Nat)
    (h : maxSteps ≤ s) : solveRecAux gas g m s = (false, g, s + 1) := by
  cases gas with
  | zero => rfl
  | succ gas =>
    simp only [solveRecAux]
    rw [if_pos (Nat.lt_succ_of_le h)]

theorem tryCandidates_congr
    (rec1 rec2 : SudokuGrid → PossMap → Nat → Bool × SudokuGrid × Nat) (s0 : Nat)
    (hcong : ∀ g m s, s0 ≤ s → rec1 g m s = rec2 g m s)
    (hmono : ∀ g m s, s + 1 ≤ (rec1 g m s).2.2) (row col : Nat) :
    ∀ (cands : List Nat) (g : SudokuGrid) (s : Nat), s0 ≤ s →
      tryCandidates rec1 row col g s cands = tryCandidates rec2 row col g s cands := by
  intro cands
  induction cands with
  | nil => intro g s _; rfl
  | cons num rest ih =>
    intro g s hs
    simp only [tryCandidates]
    split
    · rename_i m1 hup
      have he := hcong (setCell g row col num) (applyPasses m1) s hs
      rw [he]
      have hs2 : s0 ≤ (rec2 (setCell g row col num) (applyPasses m1) s).2.2 := by
        have h1 := hmono (setCell g row col num) (applyPasses m1) s
        rw [he] at h1
        omega
      by_cases hr : (rec2 (setCell g row col num) (applyPasses m1) s).1 = true
      · rw [if_pos hr, if_pos hr]
      · rw [if_neg hr, if_neg hr]
        exact ih _ _ hs2
    · exact ih _ s hs

/-- The search result does not depend on the recursion bound once the bound
covers the remaining step budget: this is the termination argument of
`solve_recursive` made explicit. -/
theorem solveRec_stable :
    ∀ (gas1 gas2 : Nat) (g : SudokuGrid) (m : PossMap) (s : Nat),
      maxSteps + 2 - s ≤ gas1 → maxSteps + 2 - s ≤ gas2 →
      solveRecAux gas1 g m s = solveRecAux gas2 g m s := by
  intro gas1
  induction gas1 with
  | zero =>
    intro gas2 g m s h1 h2
    have hb : maxSteps ≤ s := by omega
    rw [solveRec_budget 0 g m s hb, solveRec_budget gas2 g m s hb]
  | succ gas1 ih =>
    intro gas2 g m s h1 h2
    by_cases hb : maxSteps ≤ s
    · rw [solveRec_budget _ g m s hb, solveRec_budget gas2 g m s hb]
    · have hslt : s < maxSteps := Nat.lt_of_not_le hb
      cases gas2 with
      | zero => omega
      | succ gas2 =>
        simp only [solveRecAux]
        have hnb : ¬maxSteps < s + 1 := by omega
        rw [if_neg hnb, if_neg hnb]
        cases hfind : findMostConstrainedCell m with
        | cell row col cands =>
          refine tryCandidates_congr (solveRecAux gas1) (solveRecAux gas2) (s + 1)
            (fun g' m' s' hs' => ih gas2 g' m' s' (by omega) (by omega))
            (solveRec_steps gas1) row col cands g (s + 1) (Nat.le_refl _)
        | noEmptyCells => rfl
        | deadEnd => rfl

/-! ## Standard candidates shrink under a placement -/

theorem list_getD_set_ne {α : Type} : ∀ (l : List α) (n n' : Nat) (a d : α),
    n ≠ n' → (l.set n a).getD n' d = l.getD n' d := by
  intro l
  induction l with
  | nil => intro n n' a d _; rfl
  | cons x xs ih =>
    intro n n' a d h
    cases n with
    | zero =>
      cases n' with
      | zero => exact absurd rfl h
      | succ n' => rfl
    | succ n =>
      cases n' with
      | zero => rfl
      | succ n' => simpa using ih n n' a d (by omega)

theorem getCell_writeCell_ne (cs : Cells) (r c v r' c' : Nat)
    (h : ¬(r' = r ∧ c' = c)) :
    getCell (writeCell cs r c v) r' c' = getCell cs r' c' := by
  by_cases hr : r < cs.length
  · by_cases hrr : r' = r
    · subst hrr
      have hcc : c ≠ c' := fun hx => h ⟨rfl, hx.symm⟩
      unfold getCell writeCell
      rw [list_getD_set_self cs r' _ [] hr]
      exact list_getD_set_ne _ c c' v 0 hcc
    · unfold getCell writeCell
      rw [list_getD_set_ne cs r r' _ [] fun hx => hrr hx.symm]
  · unfold writeCell
    rw [list_set_out cs r _ (Nat.le_of_not_lt hr)]

theorem getCell_preserved (cs : Cells) (r c v r' c' : Nat)
    (hempty : getCell cs r c = 0) (hne : getCell cs r' c' ≠ 0) :
    getCell (writeCell cs r c v) r' c' = getCell cs r' c' := by
  by_cases h : r' = r ∧ c' = c
  · obtain ⟨h1, h2⟩ := h
    subst h1; subst h2
    exact absurd hempty hne
  · exact getCell_writeCell_ne cs r c v r' c' h

theorem usedInRow_mono (cs : Cells) (r c v row x : Nat)
    (hempty : getCell cs r c = 0) (hx : x ≠ 0)
    (h : usedInRow cs row x = true) : usedInRow (writeCell cs r c v) row x = true := by
  obtain ⟨col, hmem, hcol⟩ := List.any_eq_true.mp h
  refine List.any_eq_true.mpr ⟨col, hmem, ?_⟩
  have hval : getCell cs row col = x := by simpa using hcol
  have := getCell_preserved cs r c v row col hempty (hval ▸ hx)
  simp [this, hval]

theorem usedInCol_mono (cs : Cells) (r c v col x : Nat)
    (hempty : getCell cs r c = 0) (hx : x ≠ 0)
    (h : usedInCol cs col x = true) : usedInCol (writeCell cs r c v) col x = true := by
  obtain ⟨row, hmem, hrow⟩ := List.any_eq_true.mp h
  refine List.any_eq_true.mpr ⟨row, hmem, ?_⟩
  have hval : getCell cs row col = x := by simpa using hrow
  have := getCell_preserved cs r c v row col hempty (hval ▸ hx)
  simp [this, hval]

theorem usedInSubgrid_mono (cs : Cells) (r c v sr sc x : Nat)
    (hempty : getCell cs r c = 0) (hx : x ≠ 0)
    (h : usedInSubgrid cs sr sc x = true) :
    usedInSubgrid (writeCell cs r c v) sr sc x = true := by
  obtain ⟨i, hmemi, hi⟩ := List.any_eq_true.mp h
  obtain ⟨j, hmemj, hj⟩ := List.any_eq_true.mp hi
  refine List.any_eq_true.mpr ⟨i, hmemi, List.any_eq_true.mpr ⟨j, hmemj, ?_⟩⟩
  have hval : getCell cs (i + sr) (j + sc) = x := by simpa using hj
  have := getCell_preserved cs r c v (i + sr) (j + sc) hempty (hval ▸ hx)
  simp [this, hval]

theorem stdPossibilities_writeCell_subset (cs : Cells) (r c v r' c' : Nat)
    (hempty : getCell cs r c = 0) :
    stdPossibilities (writeCell cs r c v) r' c' ⊆ stdPossibilities cs r' c' := by
  intro d hd
  rw [stdPossibilities, List.mem_filter] at hd ⊢
  obtain ⟨hmem, hcond⟩ := hd
  refine ⟨hmem, ?_⟩
  have hd0 : d ≠ 0 := by
    have hm9 := hmem
    simp only [allDigits, List.mem_cons, List.not_mem_nil, or_false] at hm9
    omega
  have h1 := (Bool.and_eq_true _ _).mp hcond
  have h2 := (Bool.and_eq_true _ _).mp h1.1
  have hrow : usedInRow cs r' d = false := by
    cases hu : usedInRow cs r' d
    · rfl
    · have := usedInRow_mono cs r c v r' d hempty hd0 hu
      rw [this] at h2
      simp at h2
  have hcol : usedInCol cs c' d = false := by
    cases hu : usedInCol cs c' d
    · rfl
    · have := usedInCol_mono cs r c v c' d hempty hd0 hu
      rw [this] at h2
      simp at h2
  have hbox : usedInSubgrid cs (r' - r' % 3) (c' - c' % 3) d = false := by
    cases hu : usedInSubgrid cs (r' - r' % 3) (c' - c' % 3) d
    · rfl
    · have := usedInSubgrid_mono cs r c v (r' - r' % 3) (c' - c' % 3) d hempty hd0 hu
      rw [this] at h1
      simp at h1
  simp [hrow, hcol, hbox]

/-- Variant-free candidate recomputation is monotone across a placement on
an empty cell: the recomputed map after the placement is dominated by the
recomputed map before it. -/
theorem updateAll_novariant_monotone (g : SudokuGrid) (r c v : Nat) (m m' : PossMap)
    (hv : g.variants = []) (hempty : getCell g.cells r c = 0)
    (hm : solverUpdateAll g = .ok m)
    (hm' : solverUpdateAll (setCell g r c v) = .ok m') :
    possLe m' m := by
  intro k l' hl'
  have hv' : (setCell g r c v).variants = [] := by rw [setCell_variants]; exact hv
  obtain ⟨hkempty', hstd'⟩ :=
    buildPossMap_novariant_lookup (setCell g r c v) hv' rowMajorCells m' hm' k l' hl'
  have hkmem : k ∈ rowMajorCells := by
    have hs : (plookup m' k).isSome = true := by rw [hl']; rfl
    exact ((buildPossMap_ok_isSome (setCell g r c v) rowMajorCells m' hm' k).mp hs).1
  have hkempty : getCell g.cells k.1 k.2 = 0 := by
    by_cases hk : k.1 = r ∧ k.2 = c
    · obtain ⟨h1, h2⟩ := hk
      rw [h1, h2]
      exact hempty
    · rw [setCell_cells] at hkempty'
      rw [← getCell_writeCell_ne g.cells r c v k.1 k.2 hk]
      exact hkempty'
  have hsome : (plookup m k).isSome = true :=
    (buildPossMap_ok_isSome g rowMajorCells m hm k).mpr ⟨hkmem, hkempty⟩
  obtain ⟨l, hl⟩ := Option.isSome_iff_exists.mp hsome
  obtain ⟨_, hstd⟩ := buildPossMap_novariant_lookup g hv rowMajorCells m hm k l hl
  refine ⟨l, hl, ?_⟩
  rw [hstd', hstd]
  rw [setCell_cells]
  exact stdPossibilities_writeCell_subset g.cells r c v k.1 k.2 hempty

/-! ## The placed cell's own entry after `set_cell` -/

theorem plookup_append_left : ∀ (m1 m2 : PossMap) (k : Cellpos),
    plookup m1 k = none → plookup (m1 ++ m2) k = plookup m2 k := by
  intro m1
  induction m1 with
  | nil => intro m2 k _; rfl
  | cons e rest ih =>
    intro m2 k h
    obtain ⟨k0, v⟩ := e
    simp only [plookup] at h
    split at h
    · cases h
    · rename_i hne
      simp only [List.cons_append, plookup, if_neg hne]
      exact ih m2 k h

theorem plookup_psetEntry_self (m : PossMap) (k : Cellpos) (v : List Nat) :
    plookup (psetEntry m k v) k = some v := by
  unfold psetEntry
  split
  · rename_i hs
    rw [plookup_pmodify, if_pos rfl]
    obtain ⟨l, hl⟩ := Option.isSome_iff_exists.mp hs
    rw [hl]
    rfl
  · rename_i hs
    rw [plookup_append_left m [(k, v)] k (Option.not_isSome_iff_eq_none.mp hs)]
    simp [plookup]

theorem plookup_foldl_other {α : Type} (step : PossMap → α → PossMap) (l : List α)
    (k : Cellpos) (h : ∀ m x, plookup (step m x) k = plookup m k) :
    ∀ m, plookup (l.foldl step m) k = plookup m k := by
  induction l with
  | nil => intro m; rfl
  | cons x xs ih =>
    intro m
    simpa using (ih (step m x)).trans (h m x)

/-- After a variant-free placement, the grid map's entry for the placed
cell is exactly the singleton of the placed value. -/
theorem setCell_own_entry (g : SudokuGrid) (row col v : Nat)
    (hv : g.variants = []) (hne : v ≠ 0) :
    plookup (setCell g row col v).possibilities (row, col) = some [v] := by
  have hbase : plookup
      (if v = 0 then psetEntry g.possibilities (row, col) allDigits
       else psetEntry g.possibilities (row, col) [v]) (row, col) = some [v] := by
    rw [if_neg hne]
    exact plookup_psetEntry_self g.possibilities (row, col) [v]
  have hrowstep : ∀ (m : PossMap) (c : Nat),
      plookup (if c ≠ col then pmodify m (row, c) (·.filter (· ≠ v)) else m) (row, col) =
        plookup m (row, col) := by
    intro m c
    split
    · rename_i hc
      rw [plookup_pmodify,
        if_neg fun h => hc (((Prod.mk.injEq _ _ _ _).mp h).2.symm)]
    · rfl
  have hcolstep : ∀ (m : PossMap) (r : Nat),
      plookup (if r ≠ row then pmodify m (r, col) (·.filter (· ≠ v)) else m) (row, col) =
        plookup m (row, col) := by
    intro m r
    split
    · rename_i hr
      rw [plookup_pmodify,
        if_neg fun h => hr (((Prod.mk.injEq _ _ _ _).mp h).1.symm)]
    · rfl
  have hboxinner : ∀ (i : Nat) (m : PossMap) (j : Nat),
      plookup (if row / 3 * 3 + i ≠ row ∨ col / 3 * 3 + j ≠ col then
          pmodify m (row / 3 * 3 + i, col / 3 * 3 + j) (·.filter (· ≠ v))
        else m) (row, col) = plookup m (row, col) := by
    intro i m j
    split
    · rename_i hij
      rw [plookup_pmodify]
      rw [if_neg ?_]
      intro hcontra
      obtain ⟨h1, h2⟩ := (Prod.mk.injEq _ _ _ _).mp hcontra
      rcases hij with hij | hij
      · exact hij h1.symm
      · exact hij h2.symm
    · rfl
  show plookup (gridUpdatePossibilities _ row col v).possibilities (row, col) = some [v]
  unfold gridUpdatePossibilities
  rw [hv]
  simp only [List.foldl_nil]
  rw [plookup_foldl_other _ _ (row, col)
      (fun m i => plookup_foldl_other _ _ (row, col) (hboxinner i) m) _,
    plookup_foldl_other _ _ (row, col) hcolstep _,
    plookup_foldl_other _ _ (row, col) hrowstep _]
  exact hbase

/-! ## Quadruple-circle candidate map lookups -/

theorem plookup_map_keyed (F : Cellpos → List Nat) :
    ∀ (l : List Cellpos) (rc : Cellpos), rc ∈ l →
      plookup (l.map fun k => (k, F k)) rc = some (F rc) := by
  intro l
  induction l with
  | nil => intro rc h; cases h
  | cons k0 rest ih =>
    intro rc h
    simp only [List.map_cons, plookup]
    by_cases hk : k0 = rc
    · rw [if_pos hk, hk]
    · rw [if_neg hk]
      rcases List.mem_cons.mp h with h1 | h1
      · exact absurd h1.symm hk
      · exact ih rc h1

theorem quadInsert_eq (q : QuadrupleCircle) (cs : Cells) (values : List Nat) :
    quadInsert q cs values =
      q.cells.dedup.map fun k =>
        (k, if getCell cs k.1 k.2 ≠ 0 then [getCell cs k.1 k.2] else values) := by
  unfold quadInsert quadCellValues
  rw [List.map_map]
  refine List.map_congr_left fun k _ => ?_
  dsimp only [Function.comp]
  split
  · rfl
  · rfl

theorem plookup_quadInsert (q : QuadrupleCircle) (cs : Cells) (values : List Nat)
    (rc : Cellpos) (h : rc ∈ q.cells) :
    plookup (quadInsert q cs values) rc =
      some (if getCell cs rc.1 rc.2 ≠ 0 then [getCell cs rc.1 rc.2] else values) := by
  rw [quadInsert_eq]
  exact plookup_map_keyed _ q.cells.dedup rc (List.mem_dedup.mpr h)

/-! ## The search never changes the variant list -/

theorem tryCandidates_variants
    (rec : SudokuGrid → PossMap → Nat → Bool × SudokuGrid × Nat)
    (hrec : ∀ g m s b g' s', rec g m s = (b, g', s') → g'.variants = g.variants)
    (row col : Nat) :
    ∀ (cands : List Nat) (g : SudokuGrid) (s : Nat) (b : Bool) (g' : SudokuGrid) (s' : Nat),
      tryCandidates rec row col g s cands = (b, g', s') → g'.variants = g.variants := by
  intro cands
  induction cands with
  | nil =>
    intro g s b g' s' h
    simp only [tryCandidates] at h
    cases h
    rfl
  | cons num rest ih =>
    intro g s b g' s' h
    simp only [tryCandidates] at h
    split at h
    · rename_i m1 hup
      split at h
      · have := hrec _ _ _ b g' s' h
        rw [this, setCell_variants]
      · have h1 := ih _ _ b g' s' h
        rw [h1, setCell_variants]
        have h2 := hrec (setCell g row col num) (applyPasses m1) s _ _ _ rfl
        rw [h2, setCell_variants]
    · have h1 := ih _ _ b g' s' h
      rw [h1, setCell_variants, setCell_variants]

theorem solveRec_variants :
    ∀ (gas : Nat) (g : SudokuGrid) (m : PossMap) (s : Nat) (b : Bool) (g' : SudokuGrid)
      (s' : Nat), solveRecAux gas g m s = (b, g', s') → g'.variants = g.variants := by
  intro gas
  induction gas with
  | zero =>
    intro g m s b g' s' h
    simp only [solveRecAux] at h
    cases h
    rfl
  | succ gas ih =>
    intro g m s b g' s' h
    simp only [solveRecAux] at h
    split at h
    · cases h; rfl
    · split at h
      · exact tryCandidates_variants (solveRecAux gas) ih _ _ _ _ _ b g' s' h
      · cases h; rfl
      · cases h; rfl

/-! ## Claim theorems -/

/-! ## Evaluation helpers: folds, empty maps, one-step equations -/

theorem foldl_fixed {α β : Type} (step : β → α → β) (m : β) :
    ∀ l : List α, (∀ a ∈ l, step m a = m) → l.foldl step m = m
  | [], _ => rfl
  | a :: t, h => by
    rw [List.foldl_cons, h a (List.mem_cons_self a t)]
    exact foldl_fixed step m t (fun x hx => h x (List.mem_cons_of_mem a hx))

theorem applyHiddenPairs_foldl (m : PossMap) :
    applyHiddenPairs m = List.foldl hiddenStep m getAllUnits := rfl

theorem applyHiddenSubsetsToUnit_absent (m : PossMap) (u : List Cellpos) (s : Nat)
    (h : u.all (fun rc => (plookup m rc).isNone) = true) :
    applyHiddenSubsetsToUnit m u s = m := by
  unfold applyHiddenSubsetsToUnit
  apply foldl_fixed
  intro combo _
  have hcw : (u.filter fun rc =>
      match plookup m rc with
      | some poss => combo.any fun d => poss.contains d
      | none => false) = [] := by
    rw [List.filter_eq_nil_iff]
    intro rc hrc
    have hn := List.all_eq_true.mp h rc hrc
    cases hpl : plookup m rc with
    | none => simp
    | some p => rw [hpl] at hn; simp at hn
  rw [hcw]
  by_cases hs : (0 = s)
  · subst hs; simp
  · simp only [List.length_nil]
    rw [if_neg (by simp [hs])]

theorem hiddenStep_absent (m : PossMap) (u : List Cellpos)
    (h : u.all (fun rc => (plookup m rc).isNone) = true) :
    hiddenStep m u = m := by
  unfold hiddenStep
  rw [applyHiddenSubsetsToUnit_absent m u 2 h, applyHiddenSubsetsToUnit_absent m u 3 h]

theorem filterMap_plookup_nil (u : List Cellpos) :
    (u.filterMap fun rc => (plookup ([] : PossMap) rc).map fun poss => (rc, poss)) = [] := by
  induction u with
  | nil => rfl
  | cons a t ih => simp [List.filterMap_cons, plookup, ih]

theorem applyNakedSubsetsToUnit_nil (u : List Cellpos) : applyNakedSubsetsToUnit [] u = [] := by
  unfold applyNakedSubsetsToUnit
  simp only [filterMap_plookup_nil, List.filter_nil]
  rfl

theorem applyNakedSubsets_nil : applyNakedSubsets [] = [] := by
  unfold applyNakedSubsets
  exact foldl_fixed _ _ _ (fun u _ => applyNakedSubsetsToUnit_nil u)

theorem applyPointingPairs_nil : applyPointingPairs [] = [] := by
  unfold applyPointingPairs
  apply foldl_fixed
  intro value _
  apply foldl_fixed
  intro box _
  simp only [filterMap_plookup_nil, List.filter_nil]

theorem applyHiddenPairs_nil : applyHiddenPairs [] = [] := by
  rw [applyHiddenPairs_foldl]
  apply foldl_fixed
  intro u _
  apply hiddenStep_absent
  simp [plookup]

theorem applyPasses_nil : applyPasses [] = [] := by
  unfold applyPasses
  rw [applyNakedSubsets_nil, applyPointingPairs_nil, applyHiddenPairs_nil]

theorem solveRecAux_step (gas : Nat) (g : SudokuGrid) (m : PossMap) (steps : Nat) :
    solveRecAux (gas + 1) g m steps =
      if maxSteps < steps + 1 then (false, g, steps + 1)
      else
        match findMostConstrainedCell m with
        | .cell row col candidates =>
          tryCandidates (solveRecAux gas) row col g (steps + 1) candidates
        | .noEmptyCells => (validateSolutionAll g, g, steps + 1)
        | .deadEnd => (false, g, steps + 1) := rfl

theorem tryCandidates_cons_eq
    (rec : SudokuGrid → PossMap → Nat → Bool × SudokuGrid × Nat)
    (row col : Nat) (g : SudokuGrid) (steps num : Nat) (rest : List Nat) :
    tryCandidates rec row col g steps (num :: rest) =
      match solverUpdateAll (setCell g row col num) with
      | .ok m1 =>
        let r := rec (setCell g row col num) (applyPasses m1) steps
        if r.1 then r
        else tryCandidates rec row col (setCell r.2.1 row col 0) r.2.2 rest
      | .error _ =>
        tryCandidates rec row col (setCell (setCell g row col num) row col 0) steps rest := rfl

/-- Full symbolic run of the search on `gridGW`: the one empty cell takes
its single candidate and the filled board validates. -/
theorem solveGW : solverSolve gridGW = (true, setCell gridGW 8 8 4) := by
  have hga : solverGetAll gridGW = .ok [((8,8),[4])] := rfl
  have hfm : findMostConstrainedCell [((8,8),[4])] = .cell 8 8 [4] := by decide
  have hupd : solverUpdateAll (setCell gridGW 8 8 4) = .ok [] := rfl
  have hfm2 : findMostConstrainedCell [] = .noEmptyCells := by decide
  have hval : validateSolutionAll (setCell gridGW 8 8 4) = true := by decide
  have hinner : solveRecAux (maxSteps + 1) (setCell gridGW 8 8 4) [] 1 =
      (true, setCell gridGW 8 8 4, 2) := by
    rw [show maxSteps + 1 = maxSteps + 0 + 1 from rfl, solveRecAux_step]
    rw [if_neg (by decide : ¬ maxSteps < 1 + 1), hfm2, hval]
  have hrec : solveRecAux (maxSteps + 2) gridGW [((8,8),[4])] 0 =
      (true, setCell gridGW 8 8 4, 2) := by
    rw [show maxSteps + 2 = (maxSteps + 1) + 1 from rfl, solveRecAux_step]
    rw [if_neg (by decide : ¬ maxSteps < 0 + 1), hfm]
    show tryCandidates (solveRecAux (maxSteps + 1)) 8 8 gridGW (0 + 1) [4] = _
    rw [tryCandidates_cons_eq, hupd]
    show (let r := solveRecAux (maxSteps + 1) (setCell gridGW 8 8 4) (applyPasses []) (0 + 1);
      if r.1 then r
      else tryCandidates (solveRecAux (maxSteps + 1)) 8 8 (setCell r.2.1 8 8 0) r.2.2 []) = _
    rw [applyPasses_nil]
    show (let r := solveRecAux (maxSteps + 1) (setCell gridGW 8 8 4) [] 1;
      if r.1 then r
      else tryCandidates (solveRecAux (maxSteps + 1)) 8 8 (setCell r.2.1 8 8 0) r.2.2 []) = _
    rw [hinner]
    rfl
  unfold solverSolve
  rw [hga]
  show (let r := solveRecAux (maxSteps + 2) gridGW [((8,8),[4])] 0; (r.1, r.2.1)) = _
  rw [hrec]

/-- Full symbolic run of the search on `gridG2`: the forced 9 at (0,7)
starves (0,8), the lone candidate is retracted, and the search fails with
the stale all-digit entry left in the grid map. -/
theorem solveG2 : solverSolve gridG2 =
    (false,
      { cells := gridG2.cells, possibilities := [((0, 7), allDigits)],
        variants := [] }) := rfl

/-! ## Literal evaluation of the inference passes on the instance maps -/

theorem getAllUnits_eq : getAllUnits =
    [[(0, 0), (0, 1), (0, 2), (0, 3), (0, 4), (0, 5), (0, 6), (0, 7), (0, 8)],
     [(1, 0), (1, 1), (1, 2), (1, 3), (1, 4), (1, 5), (1, 6), (1, 7), (1, 8)],
     [(2, 0), (2, 1), (2, 2), (2, 3), (2, 4), (2, 5), (2, 6), (2, 7), (2, 8)],
     [(3, 0), (3, 1), (3, 2), (3, 3), (3, 4), (3, 5), (3, 6), (3, 7), (3, 8)],
     [(4, 0), (4, 1), (4, 2), (4, 3), (4, 4), (4, 5), (4, 6), (4, 7), (4, 8)],
     [(5, 0), (5, 1), (5, 2), (5, 3), (5, 4), (5, 5), (5, 6), (5, 7), (5, 8)],
     [(6, 0), (6, 1), (6, 2), (6, 3), (6, 4), (6, 5), (6, 6), (6, 7), (6, 8)],
     [(7, 0), (7, 1), (7, 2), (7, 3), (7, 4), (7, 5), (7, 6), (7, 7), (7, 8)],
     [(8, 0), (8, 1), (8, 2), (8, 3), (8, 4), (8, 5), (8, 6), (8, 7), (8, 8)],
     [(0, 0), (1, 0), (2, 0), (3, 0), (4, 0), (5, 0), (6, 0), (7, 0), (8, 0)],
     [(0, 1), (1, 1), (2, 1), (3, 1), (4, 1), (5, 1), (6, 1), (7, 1), (8, 1)],
     [(0, 2), (1, 2), (2, 2), (3, 2), (4, 2), (5, 2), (6, 2), (7, 2), (8, 2)],
     [(0, 3), (1, 3), (2, 3), (3, 3), (4, 3), (5, 3), (6, 3), (7, 3), (8, 3)],
     [(0, 4), (1, 4), (2, 4), (3, 4), (4, 4), (5, 4), (6, 4), (7, 4), (8, 4)],
     [(0, 5), (1, 5), (2, 5), (3, 5), (4, 5), (5, 5), (6, 5), (7, 5), (8, 5)],
     [(0, 6), (1, 6), (2, 6), (3, 6), (4, 6), (5, 6), (6, 6), (7, 6), (8, 6)],
     [(0, 7), (1, 7), (2, 7), (3, 7), (4, 7), (5, 7), (6, 7), (7, 7), (8, 7)],
     [(0, 8), (1, 8), (2, 8), (3, 8), (4, 8), (5, 8), (6, 8), (7, 8), (8, 8)],
     [(0, 0), (0, 1), (0, 2), (1, 0), (1, 1), (1, 2), (2, 0), (2, 1), (2, 2)],
     [(0, 3), (0, 4), (0, 5), (1, 3), (1, 4), (1, 5), (2, 3), (2, 4), (2, 5)],
     [(0, 6), (0, 7), (0, 8), (1, 6), (1, 7), (1, 8), (2, 6), (2, 7), (2, 8)],
     [(3, 0), (3, 1), (3, 2), (4, 0), (4, 1), (4, 2), (5, 0), (5, 1), (5, 2)],
     [(3, 3), (3, 4), (3, 5), (4, 3), (4, 4), (4, 5), (5, 3), (5, 4), (5, 5)],
     [(3, 6), (3, 7), (3, 8), (4, 6), (4, 7), (4, 8), (5, 6), (5, 7), (5, 8)],
     [(6, 0), (6, 1), (6, 2), (7, 0), (7, 1), (7, 2), (8, 0), (8, 1), (8, 2)],
     [(6, 3), (6, 4), (6, 5), (7, 3), (7, 4), (7, 5), (8, 3), (8, 4), (8, 5)],
     [(6, 6), (6, 7), (6, 8), (7, 6), (7, 7), (7, 8), (8, 6), (8, 7), (8, 8)]] := rfl

/-- Evaluation of the three passes on the pre-placement map of `gridGP`. -/
theorem passesEval_mPA : applyPasses mPA = [((1, 0), [9]), ((1, 2), [4]), ((1, 7), [2]), ((2, 0), [2]), ((2, 8), [9]), ((8, 0), [8]), ((8, 2), [2])] := by
  have hn : applyNakedSubsets mPA = [((1, 0), [2, 9]), ((1, 2), [4]), ((1, 7), [2]), ((2, 0), [2, 9]), ((2, 8), [9]), ((8, 0), [8]), ((8, 2), [2])] := by decide
  have hp : applyPointingPairs [((1, 0), [2, 9]), ((1, 2), [4]), ((1, 7), [2]), ((2, 0), [2, 9]), ((2, 8), [9]), ((8, 0), [8]), ((8, 2), [2])] = [((1, 0), [9]), ((1, 2), [4]), ((1, 7), [2]), ((2, 0), [2]), ((2, 8), [9]), ((8, 0), [8]), ((8, 2), [2])] := by decide
  have hs0 : hiddenStep [((1, 0), [9]), ((1, 2), [4]), ((1, 7), [2]), ((2, 0), [2]), ((2, 8), [9]), ((8, 0), [8]), ((8, 2), [2])] [(0, 0), (0, 1), (0, 2), (0, 3), (0, 4), (0, 5), (0, 6), (0, 7), (0, 8)] = [((1, 0), [9]), ((1, 2), [4]), ((1, 7), [2]), ((2, 0), [2]), ((2, 8), [9]), ((8, 0), [8]), ((8, 2), [2])] :=
    hiddenStep_absent _ _ (by decide)
  have hs1 : hiddenStep [((1, 0), [9]), ((1, 2), [4]), ((1, 7), [2]), ((2, 0), [2]), ((2, 8), [9]), ((8, 0), [8]), ((8, 2), [2])] [(1, 0), (1, 1), (1, 2), (1, 3), (1, 4), (1, 5), (1, 6), (1, 7), (1, 8)] = [((1, 0), [9]), ((1, 2), [4]), ((1, 7), [2]), ((2, 0), [2]), ((2, 8), [9]), ((8, 0), [8]), ((8, 2), [2])] := by decide
  have hs2 : hiddenStep [((1, 0), [9]), ((1, 2), [4]), ((1, 7), [2]), ((2, 0), [2]), ((2, 8), [9]), ((8, 0), [8]), ((8, 2), [2])] [(2, 0), (2, 1), (2, 2), (2, 3), (2, 4), (2, 5), (2, 6), (2, 7), (2, 8)] = [((1, 0), [9]), ((1, 2), [4]), ((1, 7), [2]), ((2, 0), [2]), ((2, 8), [9]), ((8, 0), [8]), ((8, 2), [2])] := by decide
  have hs3 : hiddenStep [((1, 0), [9]), ((1, 2), [4]), ((1, 7), [2]), ((2, 0), [2]), ((2, 8), [9]), ((8, 0), [8]), ((8, 2), [2])] [(3, 0), (3, 1), (3, 2), (3, 3), (3, 4), (3, 5), (3, 6), (3, 7), (3, 8)] = [((1, 0), [9]), ((1, 2), [4]), ((1, 7), [2]), ((2, 0), [2]), ((2, 8), [9]), ((8, 0), [8]), ((8, 2), [2])] :=
    hiddenStep_absent _ _ (by decide)
  have hs4 : hiddenStep [((1, 0), [9]), ((1, 2), [4]), ((1, 7), [2]), ((2, 0), [2]), ((2, 8), [9]), ((8, 0), [8]), ((8, 2), [2])] [(4, 0), (4, 1), (4, 2), (4, 3), (4, 4), (4, 5), (4, 6), (4, 7), (4, 8)] = [((1, 0), [9]), ((1, 2), [4]), ((1, 7), [2]), ((2, 0), [2]), ((2, 8), [9]), ((8, 0), [8]), ((8, 2), [2])] :=
    hiddenStep_absent _ _ (by decide)
  have hs5 : hiddenStep [((1, 0), [9]), ((1, 2), [4]), ((1, 7), [2]), ((2, 0), [2]), ((2, 8), [9]), ((8, 0), [8]), ((8, 2), [2])] [(5, 0), (5, 1), (5, 2), (5, 3), (5, 4), (5, 5), (5, 6), (5, 7), (5, 8)] = [((1, 0), [9]), ((1, 2), [4]), ((1, 7), [2]), ((2, 0), [2]), ((2, 8), [9]), ((8, 0), [8]), ((8, 2), [2])] :=
    hiddenStep_absent _ _ (by decide)
  have hs6 : hiddenStep [((1, 0), [9]), ((1, 2), [4]), ((1, 7), [2]), ((2, 0), [2]), ((2, 8), [9]), ((8, 0), [8]), ((8, 2), [2])] [(6, 0), (6, 1), (6, 2), (6, 3), (6, 4), (6, 5), (6, 6), (6, 7), (6, 8)] = [((1, 0), [9]), ((1, 2), [4]), ((1, 7), [2]), ((2, 0), [2]), ((2, 8), [9]), ((8, 0), [8]), ((8, 2), [2])] :=
    hiddenStep_absent _ _ (by decide)
  have hs7 : hiddenStep [((1, 0), [9]), ((1, 2), [4]), ((1, 7), [2]), ((2, 0), [2]), ((2, 8), [9]), ((8, 0), [8]), ((8, 2), [2])] [(7, 0), (7, 1), (7, 2), (7, 3), (7, 4), (7, 5), (7, 6), (7, 7), (7, 8)] = [((1, 0), [9]), ((1, 2), [4]), ((1, 7), [2]), ((2, 0), [2]), ((2, 8), [9]), ((8, 0), [8]), ((8, 2), [2])] :=
    hiddenStep_absent _ _ (by decide)
  have hs8 : hiddenStep [((1, 0), [9]), ((1, 2), [4]), ((1, 7), [2]), ((2, 0), [2]), ((2, 8), [9]), ((8, 0), [8]), ((8, 2), [2])] [(8, 0), (8, 1), (8, 2), (8, 3), (8, 4), (8, 5), (8, 6), (8, 7), (8, 8)] = [((1, 0), [9]), ((1, 2), [4]), ((1, 7), [2]), ((2, 0), [2]), ((2, 8), [9]), ((8, 0), [8]), ((8, 2), [2])] := by decide
  have hs9 : hiddenStep [((1, 0), [9]), ((1, 2), [4]), ((1, 7), [2]), ((2, 0), [2]), ((2, 8), [9]), ((8, 0), [8]), ((8, 2), [2])] [(0, 0), (1, 0), (2, 0), (3, 0), (4, 0), (5, 0), (6, 0), (7, 0), (8, 0)] = [((1, 0), [9]), ((1, 2), [4]), ((1, 7), [2]), ((2, 0), [2]), ((2, 8), [9]), ((8, 0), [8]), ((8, 2), [2])] := by decide
  have hs10 : hiddenStep [((1, 0), [9]), ((1, 2), [4]), ((1, 7), [2]), ((2, 0), [2]), ((2, 8), [9]), ((8, 0), [8]), ((8, 2), [2])] [(0, 1), (1, 1), (2, 1), (3, 1), (4, 1), (5, 1), (6, 1), (7, 1), (8, 1)] = [((1, 0), [9]), ((1, 2), [4]), ((1, 7), [2]), ((2, 0), [2]), ((2, 8), [9]), ((8, 0), [8]), ((8, 2), [2])] :=
    hiddenStep_absent _ _ (by decide)
  have hs11 : hiddenStep [((1, 0), [9]), ((1, 2), [4]), ((1, 7), [2]), ((2, 0), [2]), ((2, 8), [9]), ((8, 0), [8]), ((8, 2), [2])] [(0, 2), (1, 2), (2, 2), (3, 2), (4, 2), (5, 2), (6, 2), (7, 2), (8, 2)] = [((1, 0), [9]), ((1, 2), [4]), ((1, 7), [2]), ((2, 0), [2]), ((2, 8), [9]), ((8, 0), [8]), ((8, 2), [2])] := by decide
  have hs12 : hiddenStep [((1, 0), [9]), ((1, 2), [4]), ((1, 7), [2]), ((2, 0), [2]), ((2, 8), [9]), ((8, 0), [8]), ((8, 2), [2])] [(0, 3), (1, 3), (2, 3), (3, 3), (4, 3), (5, 3), (6, 3), (7, 3), (8, 3)] = [((1, 0), [9]), ((1, 2), [4]), ((1, 7), [2]), ((2, 0), [2]), ((2, 8), [9]), ((8, 0), [8]), ((8, 2), [2])] :=
    hiddenStep_absent _ _ (by decide)
  have hs13 : hiddenStep [((1, 0), [9]), ((1, 2), [4]), ((1, 7), [2]), ((2, 0), [2]), ((2, 8), [9]), ((8, 0), [8]), ((8, 2), [2])] [(0, 4), (1, 4), (2, 4), (3, 4), (4, 4), (5, 4), (6, 4), (7, 4), (8, 4)] = [((1, 0), [9]), ((1, 2), [4]), ((1, 7), [2]), ((2, 0), [2]), ((2, 8), [9]), ((8, 0), [8]), ((8, 2), [2])] :=
    hiddenStep_absent _ _ (by decide)
  have hs14 : hiddenStep [((1, 0), [9]), ((1, 2), [4]), ((1, 7), [2]), ((2, 0), [2]), ((2, 8), [9]), ((8, 0), [8]), ((8, 2), [2])] [(0, 5), (1, 5), (2, 5), (3, 5), (4, 5), (5, 5), (6, 5), (7, 5), (8, 5)] = [((1, 0), [9]), ((1, 2), [4]), ((1, 7), [2]), ((2, 0), [2]), ((2, 8), [9]), ((8, 0), [8]), ((8, 2), [2])] :=
    hiddenStep_absent _ _ (by decide)
  have hs15 : hiddenStep [((1, 0), [9]), ((1, 2), [4]), ((1, 7), [2]), ((2, 0), [2]), ((2, 8), [9]), ((8, 0), [8]), ((8, 2), [2])] [(0, 6), (1, 6), (2, 6), (3, 6), (4, 6), (5, 6), (6, 6), (7, 6), (8, 6)] = [((1, 0), [9]), ((1, 2), [4]), ((1, 7), [2]), ((2, 0), [2]), ((2, 8), [9]), ((8, 0), [8]), ((8, 2), [2])] :=
    hiddenStep_absent _ _ (by decide)
  have hs16 : hiddenStep [((1, 0), [9]), ((1, 2), [4]), ((1, 7), [2]), ((2, 0), [2]), ((2, 8), [9]), ((8, 0), [8]), ((8, 2), [2])] [(0, 7), (1, 7), (2, 7), (3, 7), (4, 7), (5, 7), (6, 7), (7, 7), (8, 7)] = [((1, 0), [9]), ((1, 2), [4]), ((1, 7), [2]), ((2, 0), [2]), ((2, 8), [9]), ((8, 0), [8]), ((8, 2), [2])] := by decide
  have hs17 : hiddenStep [((1, 0), [9]), ((1, 2), [4]), ((1, 7), [2]), ((2, 0), [2]), ((2, 8), [9]), ((8, 0), [8]), ((8, 2), [2])] [(0, 8), (1, 8), (2, 8), (3, 8), (4, 8), (5, 8), (6, 8), (7, 8), (8, 8)] = [((1, 0), [9]), ((1, 2), [4]), ((1, 7), [2]), ((2, 0), [2]), ((2, 8), [9]), ((8, 0), [8]), ((8, 2), [2])] := by decide
  have hs18 : hiddenStep [((1, 0), [9]), ((1, 2), [4]), ((1, 7), [2]), ((2, 0), [2]), ((2, 8), [9]), ((8, 0), [8]), ((8, 2), [2])] [(0, 0), (0, 1), (0, 2), (1, 0), (1, 1), (1, 2), (2, 0), (2, 1), (2, 2)] = [((1, 0), [9]), ((1, 2), [4]), ((1, 7), [2]), ((2, 0), [2]), ((2, 8), [9]), ((8, 0), [8]), ((8, 2), [2])] := by decide
  have hs19 : hiddenStep [((1, 0), [9]), ((1, 2), [4]), ((1, 7), [2]), ((2, 0), [2]), ((2, 8), [9]), ((8, 0), [8]), ((8, 2), [2])] [(0, 3), (0, 4), (0, 5), (1, 3), (1, 4), (1, 5), (2, 3), (2, 4), (2, 5)] = [((1, 0), [9]), ((1, 2), [4]), ((1, 7), [2]), ((2, 0), [2]), ((2, 8), [9]), ((8, 0), [8]), ((8, 2), [2])] :=
    hiddenStep_absent _ _ (by decide)
  have hs20 : hiddenStep [((1, 0), [9]), ((1, 2), [4]), ((1, 7), [2]), ((2, 0), [2]), ((2, 8), [9]), ((8, 0), [8]), ((8, 2), [2])] [(0, 6), (0, 7), (0, 8), (1, 6), (1, 7), (1, 8), (2, 6), (2, 7), (2, 8)] = [((1, 0), [9]), ((1, 2), [4]), ((1, 7), [2]), ((2, 0), [2]), ((2, 8), [9]), ((8, 0), [8]), ((8, 2), [2])] := by decide
  have hs21 : hiddenStep [((1, 0), [9]), ((1, 2), [4]), ((1, 7), [2]), ((2, 0), [2]), ((2, 8), [9]), ((8, 0), [8]), ((8, 2), [2])] [(3, 0), (3, 1), (3, 2), (4, 0), (4, 1), (4, 2), (5, 0), (5, 1), (5, 2)] = [((1, 0), [9]), ((1, 2), [4]), ((1, 7), [2]), ((2, 0), [2]), ((2, 8), [9]), ((8, 0), [8]), ((8, 2), [2])] :=
    hiddenStep_absent _ _ (by decide)
  have hs22 : hiddenStep [((1, 0), [9]), ((1, 2), [4]), ((1, 7), [2]), ((2, 0), [2]), ((2, 8), [9]), ((8, 0), [8]), ((8, 2), [2])] [(3, 3), (3, 4), (3, 5), (4, 3), (4, 4), (4, 5), (5, 3), (5, 4), (5, 5)] = [((1, 0), [9]), ((1, 2), [4]), ((1, 7), [2]), ((2, 0), [2]), ((2, 8), [9]), ((8, 0), [8]), ((8, 2), [2])] :=
    hiddenStep_absent _ _ (by decide)
  have hs23 : hiddenStep [((1, 0), [9]), ((1, 2), [4]), ((1, 7), [2]), ((2, 0), [2]), ((2, 8), [9]), ((8, 0), [8]), ((8, 2), [2])] [(3, 6), (3, 7), (3, 8), (4, 6), (4, 7), (4, 8), (5, 6), (5, 7), (5, 8)] = [((1, 0), [9]), ((1, 2), [4]), ((1, 7), [2]), ((2, 0), [2]), ((2, 8), [9]), ((8, 0), [8]), ((8, 2), [2])] :=
    hiddenStep_absent _ _ (by decide)
  have hs24 : hiddenStep [((1, 0), [9]), ((1, 2), [4]), ((1, 7), [2]), ((2, 0), [2]), ((2, 8), [9]), ((8, 0), [8]), ((8, 2), [2])] [(6, 0), (6, 1), (6, 2), (7, 0), (7, 1), (7, 2), (8, 0), (8, 1), (8, 2)] = [((1, 0), [9]), ((1, 2), [4]), ((1, 7), [2]), ((2, 0), [2]), ((2, 8), [9]), ((8, 0), [8]), ((8, 2), [2])] := by decide
  have hs25 : hiddenStep [((1, 0), [9]), ((1, 2), [4]), ((1, 7), [2]), ((2, 0), [2]), ((2, 8), [9]), ((8, 0), [8]), ((8, 2), [2])] [(6, 3), (6, 4), (6, 5), (7, 3), (7, 4), (7, 5), (8, 3), (8, 4), (8, 5)] = [((1, 0), [9]), ((1, 2), [4]), ((1, 7), [2]), ((2, 0), [2]), ((2, 8), [9]), ((8, 0), [8]), ((8, 2), [2])] :=
    hiddenStep_absent _ _ (by decide)
  have hs26 : hiddenStep [((1, 0), [9]), ((1, 2), [4]), ((1, 7), [2]), ((2, 0), [2]), ((2, 8), [9]), ((8, 0), [8]), ((8, 2), [2])] [(6, 6), (6, 7), (6, 8), (7, 6), (7, 7), (7, 8), (8, 6), (8, 7), (8, 8)] = [((1, 0), [9]), ((1, 2), [4]), ((1, 7), [2]), ((2, 0), [2]), ((2, 8), [9]), ((8, 0), [8]), ((8, 2), [2])] :=
    hiddenStep_absent _ _ (by decide)
  show applyHiddenPairs (applyPointingPairs (applyNakedSubsets mPA)) = _
  rw [hn, hp, applyHiddenPairs_foldl, getAllUnits_eq]
  rw [List.foldl_cons, hs0]
  rw [List.foldl_cons, hs1]
  rw [List.foldl_cons, hs2]
  rw [List.foldl_cons, hs3]
  rw [List.foldl_cons, hs4]
  rw [List.foldl_cons, hs5]
  rw [List.foldl_cons, hs6]
  rw [List.foldl_cons, hs7]
  rw [List.foldl_cons, hs8]
  rw [List.foldl_cons, hs9]
  rw [List.foldl_cons, hs10]
  rw [List.foldl_cons, hs11]
  rw [List.foldl_cons, hs12]
  rw [List.foldl_cons, hs13]
  rw [List.foldl_cons, hs14]
  rw [List.foldl_cons, hs15]
  rw [List.foldl_cons, hs16]
  rw [List.foldl_cons, hs17]
  rw [List.foldl_cons, hs18]
  rw [List.foldl_cons, hs19]
  rw [List.foldl_cons, hs20]
  rw [List.foldl_cons, hs21]
  rw [List.foldl_cons, hs22]
  rw [List.foldl_cons, hs23]
  rw [List.foldl_cons, hs24]
  rw [List.foldl_cons, hs25]
  rw [List.foldl_cons, hs26]
  rw [List.foldl_nil]

/-- Evaluation of the three passes on the post-placement map of `gridGP`. -/
theorem passesEval_mPB : applyPasses mPB = [((1, 2), [4]), ((1, 7), [2]), ((2, 0), [2]), ((2, 8), [9]), ((8, 0), [2, 8]), ((8, 2), [2])] := by
  have hn : applyNakedSubsets mPB = [((1, 2), [2, 4]), ((1, 7), [2]), ((2, 0), [2]), ((2, 8), [9]), ((8, 0), [2, 8]), ((8, 2), [2])] := by decide
  have hp : applyPointingPairs [((1, 2), [2, 4]), ((1, 7), [2]), ((2, 0), [2]), ((2, 8), [9]), ((8, 0), [2, 8]), ((8, 2), [2])] = [((1, 2), [4]), ((1, 7), [2]), ((2, 0), [2]), ((2, 8), [9]), ((8, 0), [2, 8]), ((8, 2), [2])] := by decide
  have hs0 : hiddenStep [((1, 2), [4]), ((1, 7), [2]), ((2, 0), [2]), ((2, 8), [9]), ((8, 0), [2, 8]), ((8, 2), [2])] [(0, 0), (0, 1), (0, 2), (0, 3), (0, 4), (0, 5), (0, 6), (0, 7), (0, 8)] = [((1, 2), [4]), ((1, 7), [2]), ((2, 0), [2]), ((2, 8), [9]), ((8, 0), [2, 8]), ((8, 2), [2])] :=
    hiddenStep_absent _ _ (by decide)
  have hs1 : hiddenStep [((1, 2), [4]), ((1, 7), [2]), ((2, 0), [2]), ((2, 8), [9]), ((8, 0), [2, 8]), ((8, 2), [2])] [(1, 0), (1, 1), (1, 2), (1, 3), (1, 4), (1, 5), (1, 6), (1, 7), (1, 8)] = [((1, 2), [4]), ((1, 7), [2]), ((2, 0), [2]), ((2, 8), [9]), ((8, 0), [2, 8]), ((8, 2), [2])] := by decide
  have hs2 : hiddenStep [((1, 2), [4]), ((1, 7), [2]), ((2, 0), [2]), ((2, 8), [9]), ((8, 0), [2, 8]), ((8, 2), [2])] [(2, 0), (2, 1), (2, 2), (2, 3), (2, 4), (2, 5), (2, 6), (2, 7), (2, 8)] = [((1, 2), [4]), ((1, 7), [2]), ((2, 0), [2]), ((2, 8), [9]), ((8, 0), [2, 8]), ((8, 2), [2])] := by decide
  have hs3 : hiddenStep [((1, 2), [4]), ((1, 7), [2]), ((2, 0), [2]), ((2, 8), [9]), ((8, 0), [2, 8]), ((8, 2), [2])] [(3, 0), (3, 1), (3, 2), (3, 3), (3, 4), (3, 5), (3, 6), (3, 7), (3, 8)] = [((1, 2), [4]), ((1, 7), [2]), ((2, 0), [2]), ((2, 8), [9]), ((8, 0), [2, 8]), ((8, 2), [2])] :=
    hiddenStep_absent _ _ (by decide)
  have hs4 : hiddenStep [((1, 2), [4]), ((1, 7), [2]), ((2, 0), [2]), ((2, 8), [9]), ((8, 0), [2, 8]), ((8, 2), [2])] [(4, 0), (4, 1), (4, 2), (4, 3), (4, 4), (4, 5), (4, 6), (4, 7), (4, 8)] = [((1, 2), [4]), ((1, 7), [2]), ((2, 0), [2]), ((2, 8), [9]), ((8, 0), [2, 8]), ((8, 2), [2])] :=
    hiddenStep_absent _ _ (by decide)
  have hs5 : hiddenStep [((1, 2), [4]), ((1, 7), [2]), ((2, 0), [2]), ((2, 8), [9]), ((8, 0), [2, 8]), ((8, 2), [2])] [(5, 0), (5, 1), (5, 2), (5, 3), (5, 4), (5, 5), (5, 6), (5, 7), (5, 8)] = [((1, 2), [4]), ((1, 7), [2]), ((2, 0), [2]), ((2, 8), [9]), ((8, 0), [2, 8]), ((8, 2), [2])] :=
    hiddenStep_absent _ _ (by decide)
  have hs6 : hiddenStep [((1, 2), [4]), ((1, 7), [2]), ((2, 0), [2]), ((2, 8), [9]), ((8, 0), [2, 8]), ((8, 2), [2])] [(6, 0), (6, 1), (6, 2), (6, 3), (6, 4), (6, 5), (6, 6), (6, 7), (6, 8)] = [((1, 2), [4]), ((1, 7), [2]), ((2, 0), [2]), ((2, 8), [9]), ((8, 0), [2, 8]), ((8, 2), [2])] :=
    hiddenStep_absent _ _ (by decide)
  have hs7 : hiddenStep [((1, 2), [4]), ((1, 7), [2]), ((2, 0), [2]), ((2, 8), [9]), ((8, 0), [2, 8]), ((8, 2), [2])] [(7, 0), (7, 1), (7, 2), (7, 3), (7, 4), (7, 5), (7, 6), (7, 7), (7, 8)] = [((1, 2), [4]), ((1, 7), [2]), ((2, 0), [2]), ((2, 8), [9]), ((8, 0), [2, 8]), ((8, 2), [2])] :=
    hiddenStep_absent _ _ (by decide)
  have hs8 : hiddenStep [((1, 2), [4]), ((1, 7), [2]), ((2, 0), [2]), ((2, 8), [9]), ((8, 0), [2, 8]), ((8, 2), [2])] [(8, 0), (8, 1), (8, 2), (8, 3), (8, 4), (8, 5), (8, 6), (8, 7), (8, 8)] = [((1, 2), [4]), ((1, 7), [2]), ((2, 0), [2]), ((2, 8), [9]), ((8, 0), [2, 8]), ((8, 2), [2])] := by decide
  have hs9 : hiddenStep [((1, 2), [4]), ((1, 7), [2]), ((2, 0), [2]), ((2, 8), [9]), ((8, 0), [2, 8]), ((8, 2), [2])] [(0, 0), (1, 0), (2, 0), (3, 0), (4, 0), (5, 0), (6, 0), (7, 0), (8, 0)] = [((1, 2), [4]), ((1, 7), [2]), ((2, 0), [2]), ((2, 8), [9]), ((8, 0), [2, 8]), ((8, 2), [2])] := by decide
  have hs10 : hiddenStep [((1, 2), [4]), ((1, 7), [2]), ((2, 0), [2]), ((2, 8), [9]), ((8, 0), [2, 8]), ((8, 2), [2])] [(0, 1), (1, 1), (2, 1), (3, 1), (4, 1), (5, 1), (6, 1), (7, 1), (8, 1)] = [((1, 2), [4]), ((1, 7), [2]), ((2, 0), [2]), ((2, 8), [9]), ((8, 0), [2, 8]), ((8, 2), [2])] :=
    hiddenStep_absent _ _ (by decide)
  have hs11 : hiddenStep [((1, 2), [4]), ((1, 7), [2]), ((2, 0), [2]), ((2, 8), [9]), ((8, 0), [2, 8]), ((8, 2), [2])] [(0, 2), (1, 2), (2, 2), (3, 2), (4, 2), (5, 2), (6, 2), (7, 2), (8, 2)] = [((1, 2), [4]), ((1, 7), [2]), ((2, 0), [2]), ((2, 8), [9]), ((8, 0), [2, 8]), ((8, 2), [2])] := by decide
  have hs12 : hiddenStep [((1, 2), [4]), ((1, 7), [2]), ((2, 0), [2]), ((2, 8), [9]), ((8, 0), [2, 8]), ((8, 2), [2])] [(0, 3), (1, 3), (2, 3), (3, 3), (4, 3), (5, 3), (6, 3), (7, 3), (8, 3)] = [((1, 2), [4]), ((1, 7), [2]), ((2, 0), [2]), ((2, 8), [9]), ((8, 0), [2, 8]), ((8, 2), [2])] :=
    hiddenStep_absent _ _ (by decide)
  have hs13 : hiddenStep [((1, 2), [4]), ((1, 7), [2]), ((2, 0), [2]), ((2, 8), [9]), ((8, 0), [2, 8]), ((8, 2), [2])] [(0, 4), (1, 4), (2, 4), (3, 4), (4, 4), (5, 4), (6, 4), (7, 4), (8, 4)] = [((1, 2), [4]), ((1, 7), [2]), ((2, 0), [2]), ((2, 8), [9]), ((8, 0), [2, 8]), ((8, 2), [2])] :=
    hiddenStep_absent _ _ (by decide)
  have hs14 : hiddenStep [((1, 2), [4]), ((1, 7), [2]), ((2, 0), [2]), ((2, 8), [9]), ((8, 0), [2, 8]), ((8, 2), [2])] [(0, 5), (1, 5), (2, 5), (3, 5), (4, 5), (5, 5), (6, 5), (7, 5), (8, 5)] = [((1, 2), [4]), ((1, 7), [2]), ((2, 0), [2]), ((2, 8), [9]), ((8, 0), [2, 8]), ((8, 2), [2])] :=
    hiddenStep_absent _ _ (by decide)
  have hs15 : hiddenStep [((1, 2), [4]), ((1, 7), [2]), ((2, 0), [2]), ((2, 8), [9]), ((8, 0), [2, 8]), ((8, 2), [2])] [(0, 6), (1, 6), (2, 6), (3, 6), (4, 6), (5, 6), (6, 6), (7, 6), (8, 6)] = [((1, 2), [4]), ((1, 7), [2]), ((2, 0), [2]), ((2, 8), [9]), ((8, 0), [2, 8]), ((8, 2), [2])] :=
    hiddenStep_absent _ _ (by decide)
  have hs16 : hiddenStep [((1, 2), [4]), ((1, 7), [2]), ((2, 0), [2]), ((2, 8), [9]), ((8, 0), [2, 8]), ((8, 2), [2])] [(0, 7), (1, 7), (2, 7), (3, 7), (4, 7), (5, 7), (6, 7), (7, 7), (8, 7)] = [((1, 2), [4]), ((1, 7), [2]), ((2, 0), [2]), ((2, 8), [9]), ((8, 0), [2, 8]), ((8, 2), [2])] := by decide
  have hs17 : hiddenStep [((1, 2), [4]), ((1, 7), [2]), ((2, 0), [2]), ((2, 8), [9]), ((8, 0), [2, 8]), ((8, 2), [2])] [(0, 8), (1, 8), (2, 8), (3, 8), (4, 8), (5, 8), (6, 8), (7, 8), (8, 8)] = [((1, 2), [4]), ((1, 7), [2]), ((2, 0), [2]), ((2, 8), [9]), ((8, 0), [2, 8]), ((8, 2), [2])] := by decide
  have hs18 : hiddenStep [((1, 2), [4]), ((1, 7), [2]), ((2, 0), [2]), ((2, 8), [9]), ((8, 0), [2, 8]), ((8, 2), [2])] [(0, 0), (0, 1), (0, 2), (1, 0), (1, 1), (1, 2), (2, 0), (2, 1), (2, 2)] = [((1, 2), [4]), ((1, 7), [2]), ((2, 0), [2]), ((2, 8), [9]), ((8, 0), [2, 8]), ((8, 2), [2])] := by decide
  have hs19 : hiddenStep [((1, 2), [4]), ((1, 7), [2]), ((2, 0), [2]), ((2, 8), [9]), ((8, 0), [2, 8]), ((8, 2), [2])] [(0, 3), (0, 4), (0, 5), (1, 3), (1, 4), (1, 5), (2, 3), (2, 4), (2, 5)] = [((1, 2), [4]), ((1, 7), [2]), ((2, 0), [2]), ((2, 8), [9]), ((8, 0), [2, 8]), ((8, 2), [2])] :=
    hiddenStep_absent _ _ (by decide)
  have hs20 : hiddenStep [((1, 2), [4]), ((1, 7), [2]), ((2, 0), [2]), ((2, 8), [9]), ((8, 0), [2, 8]), ((8, 2), [2])] [(0, 6), (0, 7), (0, 8), (1, 6), (1, 7), (1, 8), (2, 6), (2, 7), (2, 8)] = [((1, 2), [4]), ((1, 7), [2]), ((2, 0), [2]), ((2, 8), [9]), ((8, 0), [2, 8]), ((8, 2), [2])] := by decide
  have hs21 : hiddenStep [((1, 2), [4]), ((1, 7), [2]), ((2, 0), [2]), ((2, 8), [9]), ((8, 0), [2, 8]), ((8, 2), [2])] [(3, 0), (3, 1), (3, 2), (4, 0), (4, 1), (4, 2), (5, 0), (5, 1), (5, 2)] = [((1, 2), [4]), ((1, 7), [2]), ((2, 0), [2]), ((2, 8), [9]), ((8, 0), [2, 8]), ((8, 2), [2])] :=
    hiddenStep_absent _ _ (by decide)
  have hs22 : hiddenStep [((1, 2), [4]), ((1, 7), [2]), ((2, 0), [2]), ((2, 8), [9]), ((8, 0), [2, 8]), ((8, 2), [2])] [(3, 3), (3, 4), (3, 5), (4, 3), (4, 4), (4, 5), (5, 3), (5, 4), (5, 5)] = [((1, 2), [4]), ((1, 7), [2]), ((2, 0), [2]), ((2, 8), [9]), ((8, 0), [2, 8]), ((8, 2), [2])] :=
    hiddenStep_absent _ _ (by decide)
  have hs23 : hiddenStep [((1, 2), [4]), ((1, 7), [2]), ((2, 0), [2]), ((2, 8), [9]), ((8, 0), [2, 8]), ((8, 2), [2])] [(3, 6), (3, 7), (3, 8), (4, 6), (4, 7), (4, 8), (5, 6), (5, 7), (5, 8)] = [((1, 2), [4]), ((1, 7), [2]), ((2, 0), [2]), ((2, 8), [9]), ((8, 0), [2, 8]), ((8, 2), [2])] :=
    hiddenStep_absent _ _ (by decide)
  have hs24 : hiddenStep [((1, 2), [4]), ((1, 7), [2]), ((2, 0), [2]), ((2, 8), [9]), ((8, 0), [2, 8]), ((8, 2), [2])] [(6, 0), (6, 1), (6, 2), (7, 0), (7, 1), (7, 2), (8, 0), (8, 1), (8, 2)] = [((1, 2), [4]), ((1, 7), [2]), ((2, 0), [2]), ((2, 8), [9]), ((8, 0), [2, 8]), ((8, 2), [2])] := by decide
  have hs25 : hiddenStep [((1, 2), [4]), ((1, 7), [2]), ((2, 0), [2]), ((2, 8), [9]), ((8, 0), [2, 8]), ((8, 2), [2])] [(6, 3), (6, 4), (6, 5), (7, 3), (7, 4), (7, 5), (8, 3), (8, 4), (8, 5)] = [((1, 2), [4]), ((1, 7), [2]), ((2, 0), [2]), ((2, 8), [9]), ((8, 0), [2, 8]), ((8, 2), [2])] :=
    hiddenStep_absent _ _ (by decide)
  have hs26 : hiddenStep [((1, 2), [4]), ((1, 7), [2]), ((2, 0), [2]), ((2, 8), [9]), ((8, 0), [2, 8]), ((8, 2), [2])] [(6, 6), (6, 7), (6, 8), (7, 6), (7, 7), (7, 8), (8, 6), (8, 7), (8, 8)] = [((1, 2), [4]), ((1, 7), [2]), ((2, 0), [2]), ((2, 8), [9]), ((8, 0), [2, 8]), ((8, 2), [2])] :=
    hiddenStep_absent _ _ (by decide)
  show applyHiddenPairs (applyPointingPairs (applyNakedSubsets mPB)) = _
  rw [hn, hp, applyHiddenPairs_foldl, getAllUnits_eq]
  rw [List.foldl_cons, hs0]
  rw [List.foldl_cons, hs1]
  rw [List.foldl_cons, hs2]
  rw [List.foldl_cons, hs3]
  rw [List.foldl_cons, hs4]
  rw [List.foldl_cons, hs5]
  rw [List.foldl_cons, hs6]
  rw [List.foldl_cons, hs7]
  rw [List.foldl_cons, hs8]
  rw [List.foldl_cons, hs9]
  rw [List.foldl_cons, hs10]
  rw [List.foldl_cons, hs11]
  rw [List.foldl_cons, hs12]
  rw [List.foldl_cons, hs13]
  rw [List.foldl_cons, hs14]
  rw [List.foldl_cons, hs15]
  rw [List.foldl_cons, hs16]
  rw [List.foldl_cons, hs17]
  rw [List.foldl_cons, hs18]
  rw [List.foldl_cons, hs19]
  rw [List.foldl_cons, hs20]
  rw [List.foldl_cons, hs21]
  rw [List.foldl_cons, hs22]
  rw [List.foldl_cons, hs23]
  rw [List.foldl_cons, hs24]
  rw [List.foldl_cons, hs25]
  rw [List.foldl_cons, hs26]
  rw [List.foldl_nil]

/-- Evaluation of the three passes on the initial map of `gridGQ`. -/
theorem passesEval_mQA : applyPasses mQA = [((2, 0), [2]), ((2, 2), [6]), ((5, 0), [6]), ((7, 1), [6]), ((7, 2), [5, 6])] := by
  have hn : applyNakedSubsets mQA = [((2, 0), [2, 6]), ((2, 2), [6]), ((5, 0), [6]), ((7, 1), [6]), ((7, 2), [5, 6])] := by decide
  have hp : applyPointingPairs [((2, 0), [2, 6]), ((2, 2), [6]), ((5, 0), [6]), ((7, 1), [6]), ((7, 2), [5, 6])] = [((2, 0), [2]), ((2, 2), [6]), ((5, 0), [6]), ((7, 1), [6]), ((7, 2), [5, 6])] := by decide
  have hs0 : hiddenStep [((2, 0), [2]), ((2, 2), [6]), ((5, 0), [6]), ((7, 1), [6]), ((7, 2), [5, 6])] [(0, 0), (0, 1), (0, 2), (0, 3), (0, 4), (0, 5), (0, 6), (0, 7), (0, 8)] = [((2, 0), [2]), ((2, 2), [6]), ((5, 0), [6]), ((7, 1), [6]), ((7, 2), [5, 6])] :=
    hiddenStep_absent _ _ (by decide)
  have hs1 : hiddenStep [((2, 0), [2]), ((2, 2), [6]), ((5, 0), [6]), ((7, 1), [6]), ((7, 2), [5, 6])] [(1, 0), (1, 1), (1, 2), (1, 3), (1, 4), (1, 5), (1, 6), (1, 7), (1, 8)] = [((2, 0), [2]), ((2, 2), [6]), ((5, 0), [6]), ((7, 1), [6]), ((7, 2), [5, 6])] :=
    hiddenStep_absent _ _ (by decide)
  have hs2 : hiddenStep [((2, 0), [2]), ((2, 2), [6]), ((5, 0), [6]), ((7, 1), [6]), ((7, 2), [5, 6])] [(2, 0), (2, 1), (2, 2), (2, 3), (2, 4), (2, 5), (2, 6), (2, 7), (2, 8)] = [((2, 0), [2]), ((2, 2), [6]), ((5, 0), [6]), ((7, 1), [6]), ((7, 2), [5, 6])] := by decide
  have hs3 : hiddenStep [((2, 0), [2]), ((2, 2), [6]), ((5, 0), [6]), ((7, 1), [6]), ((7, 2), [5, 6])] [(3, 0), (3, 1), (3, 2), (3, 3), (3, 4), (3, 5), (3, 6), (3, 7), (3, 8)] = [((2, 0), [2]), ((2, 2), [6]), ((5, 0), [6]), ((7, 1), [6]), ((7, 2), [5, 6])] :=
    hiddenStep_absent _ _ (by decide)
  have hs4 : hiddenStep [((2, 0), [2]), ((2, 2), [6]), ((5, 0), [6]), ((7, 1), [6]), ((7, 2), [5, 6])] [(4, 0), (4, 1), (4, 2), (4, 3), (4, 4), (4, 5), (4, 6), (4, 7), (4, 8)] = [((2, 0), [2]), ((2, 2), [6]), ((5, 0), [6]), ((7, 1), [6]), ((7, 2), [5, 6])] :=
    hiddenStep_absent _ _ (by decide)
  have hs5 : hiddenStep [((2, 0), [2]), ((2, 2), [6]), ((5, 0), [6]), ((7, 1), [6]), ((7, 2), [5, 6])] [(5, 0), (5, 1), (5, 2), (5, 3), (5, 4), (5, 5), (5, 6), (5, 7), (5, 8)] = [((2, 0), [2]), ((2, 2), [6]), ((5, 0), [6]), ((7, 1), [6]), ((7, 2), [5, 6])] := by decide
  have hs6 : hiddenStep [((2, 0), [2]), ((2, 2), [6]), ((5, 0), [6]), ((7, 1), [6]), ((7, 2), [5, 6])] [(6, 0), (6, 1), (6, 2), (6, 3), (6, 4), (6, 5), (6, 6), (6, 7), (6, 8)] = [((2, 0), [2]), ((2, 2), [6]), ((5, 0), [6]), ((7, 1), [6]), ((7, 2), [5, 6])] :=
    hiddenStep_absent _ _ (by decide)
  have hs7 : hiddenStep [((2, 0), [2]), ((2, 2), [6]), ((5, 0), [6]), ((7, 1), [6]), ((7, 2), [5, 6])] [(7, 0), (7, 1), (7, 2), (7, 3), (7, 4), (7, 5), (7, 6), (7, 7), (7, 8)] = [((2, 0), [2]), ((2, 2), [6]), ((5, 0), [6]), ((7, 1), [6]), ((7, 2), [5, 6])] := by decide
  have hs8 : hiddenStep [((2, 0), [2]), ((2, 2), [6]), ((5, 0), [6]), ((7, 1), [6]), ((7, 2), [5, 6])] [(8, 0), (8, 1), (8, 2), (8, 3), (8, 4), (8, 5), (8, 6), (8, 7), (8, 8)] = [((2, 0), [2]), ((2, 2), [6]), ((5, 0), [6]), ((7, 1), [6]), ((7, 2), [5, 6])] :=
    hiddenStep_absent _ _ (by decide)
  have hs9 : hiddenStep [((2, 0), [2]), ((2, 2), [6]), ((5, 0), [6]), ((7, 1), [6]), ((7, 2), [5, 6])] [(0, 0), (1, 0), (2, 0), (3, 0), (4, 0), (5, 0), (6, 0), (7, 0), (8, 0)] = [((2, 0), [2]), ((2, 2), [6]), ((5, 0), [6]), ((7, 1), [6]), ((7, 2), [5, 6])] := by decide
  have hs10 : hiddenStep [((2, 0), [2]), ((2, 2), [6]), ((5, 0), [6]), ((7, 1), [6]), ((7, 2), [5, 6])] [(0, 1), (1, 1), (2, 1), (3, 1), (4, 1), (5, 1), (6, 1), (7, 1), (8, 1)] = [((2, 0), [2]), ((2, 2), [6]), ((5, 0), [6]), ((7, 1), [6]), ((7, 2), [5, 6])] := by decide
  have hs11 : hiddenStep [((2, 0), [2]), ((2, 2), [6]), ((5, 0), [6]), ((7, 1), [6]), ((7, 2), [5, 6])] [(0, 2), (1, 2), (2, 2), (3, 2), (4, 2), (5, 2), (6, 2), (7, 2), (8, 2)] = [((2, 0), [2]), ((2, 2), [6]), ((5, 0), [6]), ((7, 1), [6]), ((7, 2), [5, 6])] := by decide
  have hs12 : hiddenStep [((2, 0), [2]), ((2, 2), [6]), ((5, 0), [6]), ((7, 1), [6]), ((7, 2), [5, 6])] [(0, 3), (1, 3), (2, 3), (3, 3), (4, 3), (5, 3), (6, 3), (7, 3), (8, 3)] = [((2, 0), [2]), ((2, 2), [6]), ((5, 0), [6]), ((7, 1), [6]), ((7, 2), [5, 6])] :=
    hiddenStep_absent _ _ (by decide)
  have hs13 : hiddenStep [((2, 0), [2]), ((2, 2), [6]), ((5, 0), [6]), ((7, 1), [6]), ((7, 2), [5, 6])] [(0, 4), (1, 4), (2, 4), (3, 4), (4, 4), (5, 4), (6, 4), (7, 4), (8, 4)] = [((2, 0), [2]), ((2, 2), [6]), ((5, 0), [6]), ((7, 1), [6]), ((7, 2), [5, 6])] :=
    hiddenStep_absent _ _ (by decide)
  have hs14 : hiddenStep [((2, 0), [2]), ((2, 2), [6]), ((5, 0), [6]), ((7, 1), [6]), ((7, 2), [5, 6])] [(0, 5), (1, 5), (2, 5), (3, 5), (4, 5), (5, 5), (6, 5), (7, 5), (8, 5)] = [((2, 0), [2]), ((2, 2), [6]), ((5, 0), [6]), ((7, 1), [6]), ((7, 2), [5, 6])] :=
    hiddenStep_absent _ _ (by decide)
  have hs15 : hiddenStep [((2, 0), [2]), ((2, 2), [6]), ((5, 0), [6]), ((7, 1), [6]), ((7, 2), [5, 6])] [(0, 6), (1, 6), (2, 6), (3, 6), (4, 6), (5, 6), (6, 6), (7, 6), (8, 6)] = [((2, 0), [2]), ((2, 2), [6]), ((5, 0), [6]), ((7, 1), [6]), ((7, 2), [5, 6])] :=
    hiddenStep_absent _ _ (by decide)
  have hs16 : hiddenStep [((2, 0), [2]), ((2, 2), [6]), ((5, 0), [6]), ((7, 1), [6]), ((7, 2), [5, 6])] [(0, 7), (1, 7), (2, 7), (3, 7), (4, 7), (5, 7), (6, 7), (7, 7), (8, 7)] = [((2, 0), [2]), ((2, 2), [6]), ((5, 0), [6]), ((7, 1), [6]), ((7, 2), [5, 6])] :=
    hiddenStep_absent _ _ (by decide)
  have hs17 : hiddenStep [((2, 0), [2]), ((2, 2), [6]), ((5, 0), [6]), ((7, 1), [6]), ((7, 2), [5, 6])] [(0, 8), (1, 8), (2, 8), (3, 8), (4, 8), (5, 8), (6, 8), (7, 8), (8, 8)] = [((2, 0), [2]), ((2, 2), [6]), ((5, 0), [6]), ((7, 1), [6]), ((7, 2), [5, 6])] :=
    hiddenStep_absent _ _ (by decide)
  have hs18 : hiddenStep [((2, 0), [2]), ((2, 2), [6]), ((5, 0), [6]), ((7, 1), [6]), ((7, 2), [5, 6])] [(0, 0), (0, 1), (0, 2), (1, 0), (1, 1), (1, 2), (2, 0), (2, 1), (2, 2)] = [((2, 0), [2]), ((2, 2), [6]), ((5, 0), [6]), ((7, 1), [6]), ((7, 2), [5, 6])] := by decide
  have hs19 : hiddenStep [((2, 0), [2]), ((2, 2), [6]), ((5, 0), [6]), ((7, 1), [6]), ((7, 2), [5, 6])] [(0, 3), (0, 4), (0, 5), (1, 3), (1, 4), (1, 5), (2, 3), (2, 4), (2, 5)] = [((2, 0), [2]), ((2, 2), [6]), ((5, 0), [6]), ((7, 1), [6]), ((7, 2), [5, 6])] :=
    hiddenStep_absent _ _ (by decide)
  have hs20 : hiddenStep [((2, 0), [2]), ((2, 2), [6]), ((5, 0), [6]), ((7, 1), [6]), ((7, 2), [5, 6])] [(0, 6), (0, 7), (0, 8), (1, 6), (1, 7), (1, 8), (2, 6), (2, 7), (2, 8)] = [((2, 0), [2]), ((2, 2), [6]), ((5, 0), [6]), ((7, 1), [6]), ((7, 2), [5, 6])] :=
    hiddenStep_absent _ _ (by decide)
  have hs21 : hiddenStep [((2, 0), [2]), ((2, 2), [6]), ((5, 0), [6]), ((7, 1), [6]), ((7, 2), [5, 6])] [(3, 0), (3, 1), (3, 2), (4, 0), (4, 1), (4, 2), (5, 0), (5, 1), (5, 2)] = [((2, 0), [2]), ((2, 2), [6]), ((5, 0), [6]), ((7, 1), [6]), ((7, 2), [5, 6])] := by decide
  have hs22 : hiddenStep [((2, 0), [2]), ((2, 2), [6]), ((5, 0), [6]), ((7, 1), [6]), ((7, 2), [5, 6])] [(3, 3), (3, 4), (3, 5), (4, 3), (4, 4), (4, 5), (5, 3), (5, 4), (5, 5)] = [((2, 0), [2]), ((2, 2), [6]), ((5, 0), [6]), ((7, 1), [6]), ((7, 2), [5, 6])] :=
    hiddenStep_absent _ _ (by decide)
  have hs23 : hiddenStep [((2, 0), [2]), ((2, 2), [6]), ((5, 0), [6]), ((7, 1), [6]), ((7, 2), [5, 6])] [(3, 6), (3, 7), (3, 8), (4, 6), (4, 7), (4, 8), (5, 6), (5, 7), (5, 8)] = [((2, 0), [2]), ((2, 2), [6]), ((5, 0), [6]), ((7, 1), [6]), ((7, 2), [5, 6])] :=
    hiddenStep_absent _ _ (by decide)
  have hs24 : hiddenStep [((2, 0), [2]), ((2, 2), [6]), ((5, 0), [6]), ((7, 1), [6]), ((7, 2), [5, 6])] [(6, 0), (6, 1), (6, 2), (7, 0), (7, 1), (7, 2), (8, 0), (8, 1), (8, 2)] = [((2, 0), [2]), ((2, 2), [6]), ((5, 0), [6]), ((7, 1), [6]), ((7, 2), [5, 6])] := by decide
  have hs25 : hiddenStep [((2, 0), [2]), ((2, 2), [6]), ((5, 0), [6]), ((7, 1), [6]), ((7, 2), [5, 6])] [(6, 3), (6, 4), (6, 5), (7, 3), (7, 4), (7, 5), (8, 3), (8, 4), (8, 5)] = [((2, 0), [2]), ((2, 2), [6]), ((5, 0), [6]), ((7, 1), [6]), ((7, 2), [5, 6])] :=
    hiddenStep_absent _ _ (by decide)
  have hs26 : hiddenStep [((2, 0), [2]), ((2, 2), [6]), ((5, 0), [6]), ((7, 1), [6]), ((7, 2), [5, 6])] [(6, 6), (6, 7), (6, 8), (7, 6), (7, 7), (7, 8), (8, 6), (8, 7), (8, 8)] = [((2, 0), [2]), ((2, 2), [6]), ((5, 0), [6]), ((7, 1), [6]), ((7, 2), [5, 6])] :=
    hiddenStep_absent _ _ (by decide)
  show applyHiddenPairs (applyPointingPairs (applyNakedSubsets mQA)) = _
  rw [hn, hp, applyHiddenPairs_foldl, getAllUnits_eq]
  rw [List.foldl_cons, hs0]
  rw [List.foldl_cons, hs1]
  rw [List.foldl_cons, hs2]
  rw [List.foldl_cons, hs3]
  rw [List.foldl_cons, hs4]
  rw [List.foldl_cons, hs5]
  rw [List.foldl_cons, hs6]
  rw [List.foldl_cons, hs7]
  rw [List.foldl_cons, hs8]
  rw [List.foldl_cons, hs9]
  rw [List.foldl_cons, hs10]
  rw [List.foldl_cons, hs11]
  rw [List.foldl_cons, hs12]
  rw [List.foldl_cons, hs13]
  rw [List.foldl_cons, hs14]
  rw [List.foldl_cons, hs15]
  rw [List.foldl_cons, hs16]
  rw [List.foldl_cons, hs17]
  rw [List.foldl_cons, hs18]
  rw [List.foldl_cons, hs19]
  rw [List.foldl_cons, hs20]
  rw [List.foldl_cons, hs21]
  rw [List.foldl_cons, hs22]
  rw [List.foldl_cons, hs23]
  rw [List.foldl_cons, hs24]
  rw [List.foldl_cons, hs25]
  rw [List.foldl_cons, hs26]
  rw [List.foldl_nil]

/-- Evaluation of the three passes on the once-passed map of `gridGQ`. -/
theorem passesEval_mQ1 : applyPasses mQ1 = [((2, 0), [2]), ((2, 2), [6]), ((5, 0), [6]), ((7, 1), [6]), ((7, 2), [5])] := by
  have hn : applyNakedSubsets mQ1 = [((2, 0), [2]), ((2, 2), [6]), ((5, 0), [6]), ((7, 1), [6]), ((7, 2), [5, 6])] := by decide
  have hp : applyPointingPairs [((2, 0), [2]), ((2, 2), [6]), ((5, 0), [6]), ((7, 1), [6]), ((7, 2), [5, 6])] = [((2, 0), [2]), ((2, 2), [6]), ((5, 0), [6]), ((7, 1), [6]), ((7, 2), [5])] := by decide
  have hs0 : hiddenStep [((2, 0), [2]), ((2, 2), [6]), ((5, 0), [6]), ((7, 1), [6]), ((7, 2), [5])] [(0, 0), (0, 1), (0, 2), (0, 3), (0, 4), (0, 5), (0, 6), (0, 7), (0, 8)] = [((2, 0), [2]), ((2, 2), [6]), ((5, 0), [6]), ((7, 1), [6]), ((7, 2), [5])] :=
    hiddenStep_absent _ _ (by decide)
  have hs1 : hiddenStep [((2, 0), [2]), ((2, 2), [6]), ((5, 0), [6]), ((7, 1), [6]), ((7, 2), [5])] [(1, 0), (1, 1), (1, 2), (1, 3), (1, 4), (1, 5), (1, 6), (1, 7), (1, 8)] = [((2, 0), [2]), ((2, 2), [6]), ((5, 0), [6]), ((7, 1), [6]), ((7, 2), [5])] :=
    hiddenStep_absent _ _ (by decide)
  have hs2 : hiddenStep [((2, 0), [2]), ((2, 2), [6]), ((5, 0), [6]), ((7, 1), [6]), ((7, 2), [5])] [(2, 0), (2, 1), (2, 2), (2, 3), (2, 4), (2, 5), (2, 6), (2, 7), (2, 8)] = [((2, 0), [2]), ((2, 2), [6]), ((5, 0), [6]), ((7, 1), [6]), ((7, 2), [5])] := by decide
  have hs3 : hiddenStep [((2, 0), [2]), ((2, 2), [6]), ((5, 0), [6]), ((7, 1), [6]), ((7, 2), [5])] [(3, 0), (3, 1), (3, 2), (3, 3), (3, 4), (3, 5), (3, 6), (3, 7), (3, 8)] = [((2, 0), [2]), ((2, 2), [6]), ((5, 0), [6]), ((7, 1), [6]), ((7, 2), [5])] :=
    hiddenStep_absent _ _ (by decide)
  have hs4 : hiddenStep [((2, 0), [2]), ((2, 2), [6]), ((5, 0), [6]), ((7, 1), [6]), ((7, 2), [5])] [(4, 0), (4, 1), (4, 2), (4, 3), (4, 4), (4, 5), (4, 6), (4, 7), (4, 8)] = [((2, 0), [2]), ((2, 2), [6]), ((5, 0), [6]), ((7, 1), [6]), ((7, 2), [5])] :=
    hiddenStep_absent _ _ (by decide)
  have hs5 : hiddenStep [((2, 0), [2]), ((2, 2), [6]), ((5, 0), [6]), ((7, 1), [6]), ((7, 2), [5])] [(5, 0), (5, 1), (5, 2), (5, 3), (5, 4), (5, 5), (5, 6), (5, 7), (5, 8)] = [((2, 0), [2]), ((2, 2), [6]), ((5, 0), [6]), ((7, 1), [6]), ((7, 2), [5])] := by decide
  have hs6 : hiddenStep [((2, 0), [2]), ((2, 2), [6]), ((5, 0), [6]), ((7, 1), [6]), ((7, 2), [5])] [(6, 0), (6, 1), (6, 2), (6, 3), (6, 4), (6, 5), (6, 6), (6, 7), (6, 8)] = [((2, 0), [2]), ((2, 2), [6]), ((5, 0), [6]), ((7, 1), [6]), ((7, 2), [5])] :=
    hiddenStep_absent _ _ (by decide)
  have hs7 : hiddenStep [((2, 0), [2]), ((2, 2), [6]), ((5, 0), [6]), ((7, 1), [6]), ((7, 2), [5])] [(7, 0), (7, 1), (7, 2), (7, 3), (7, 4), (7, 5), (7, 6), (7, 7), (7, 8)] = [((2, 0), [2]), ((2, 2), [6]), ((5, 0), [6]), ((7, 1), [6]), ((7, 2), [5])] := by decide
  have hs8 : hiddenStep [((2, 0), [2]), ((2, 2), [6]), ((5, 0), [6]), ((7, 1), [6]), ((7, 2), [5])] [(8, 0), (8, 1), (8, 2), (8, 3), (8, 4), (8, 5), (8, 6), (8, 7), (8, 8)] = [((2, 0), [2]), ((2, 2), [6]), ((5, 0), [6]), ((7, 1), [6]), ((7, 2), [5])] :=
    hiddenStep_absent _ _ (by decide)
  have hs9 : hiddenStep [((2, 0), [2]), ((2, 2), [6]), ((5, 0), [6]), ((7, 1), [6]), ((7, 2), [5])] [(0, 0), (1, 0), (2, 0), (3, 0), (4, 0), (5, 0), (6, 0), (7, 0), (8, 0)] = [((2, 0), [2]), ((2, 2), [6]), ((5, 0), [6]), ((7, 1), [6]), ((7, 2), [5])] := by decide
  have hs10 : hiddenStep [((2, 0), [2]), ((2, 2), [6]), ((5, 0), [6]), ((7, 1), [6]), ((7, 2), [5])] [(0, 1), (1, 1), (2, 1), (3, 1), (4, 1), (5, 1), (6, 1), (7, 1), (8, 1)] = [((2, 0), [2]), ((2, 2), [6]), ((5, 0), [6]), ((7, 1), [6]), ((7, 2), [5])] := by decide
  have hs11 : hiddenStep [((2, 0), [2]), ((2, 2), [6]), ((5, 0), [6]), ((7, 1), [6]), ((7, 2), [5])] [(0, 2), (1, 2), (2, 2), (3, 2), (4, 2), (5, 2), (6, 2), (7, 2), (8, 2)] = [((2, 0), [2]), ((2, 2), [6]), ((5, 0), [6]), ((7, 1), [6]), ((7, 2), [5])] := by decide
  have hs12 : hiddenStep [((2, 0), [2]), ((2, 2), [6]), ((5, 0), [6]), ((7, 1), [6]), ((7, 2), [5])] [(0, 3), (1, 3), (2, 3), (3, 3), (4, 3), (5, 3), (6, 3), (7, 3), (8, 3)] = [((2, 0), [2]), ((2, 2), [6]), ((5, 0), [6]), ((7, 1), [6]), ((7, 2), [5])] :=
    hiddenStep_absent _ _ (by decide)
  have hs13 : hiddenStep [((2, 0), [2]), ((2, 2), [6]), ((5, 0), [6]), ((7, 1), [6]), ((7, 2), [5])] [(0, 4), (1, 4), (2, 4), (3, 4), (4, 4), (5, 4), (6, 4), (7, 4), (8, 4)] = [((2, 0), [2]), ((2, 2), [6]), ((5, 0), [6]), ((7, 1), [6]), ((7, 2), [5])] :=
    hiddenStep_absent _ _ (by decide)
  have hs14 : hiddenStep [((2, 0), [2]), ((2, 2), [6]), ((5, 0), [6]), ((7, 1), [6]), ((7, 2), [5])] [(0, 5), (1, 5), (2, 5), (3, 5), (4, 5), (5, 5), (6, 5), (7, 5), (8, 5)] = [((2, 0), [2]), ((2, 2), [6]), ((5, 0), [6]), ((7, 1), [6]), ((7, 2), [5])] :=
    hiddenStep_absent _ _ (by decide)
  have hs15 : hiddenStep [((2, 0), [2]), ((2, 2), [6]), ((5, 0), [6]), ((7, 1), [6]), ((7, 2), [5])] [(0, 6), (1, 6), (2, 6), (3, 6), (4, 6), (5, 6), (6, 6), (7, 6), (8, 6)] = [((2, 0), [2]), ((2, 2), [6]), ((5, 0), [6]), ((7, 1), [6]), ((7, 2), [5])] :=
    hiddenStep_absent _ _ (by decide)
  have hs16 : hiddenStep [((2, 0), [2]), ((2, 2), [6]), ((5, 0), [6]), ((7, 1), [6]), ((7, 2), [5])] [(0, 7), (1, 7), (2, 7), (3, 7), (4, 7), (5, 7), (6, 7), (7, 7), (8, 7)] = [((2, 0), [2]), ((2, 2), [6]), ((5, 0), [6]), ((7, 1), [6]), ((7, 2), [5])] :=
    hiddenStep_absent _ _ (by decide)
  have hs17 : hiddenStep [((2, 0), [2]), ((2, 2), [6]), ((5, 0), [6]), ((7, 1), [6]), ((7, 2), [5])] [(0, 8), (1, 8), (2, 8), (3, 8), (4, 8), (5, 8), (6, 8), (7, 8), (8, 8)] = [((2, 0), [2]), ((2, 2), [6]), ((5, 0), [6]), ((7, 1), [6]), ((7, 2), [5])] :=
    hiddenStep_absent _ _ (by decide)
  have hs18 : hiddenStep [((2, 0), [2]), ((2, 2), [6]), ((5, 0), [6]), ((7, 1), [6]), ((7, 2), [5])] [(0, 0), (0, 1), (0, 2), (1, 0), (1, 1), (1, 2), (2, 0), (2, 1), (2, 2)] = [((2, 0), [2]), ((2, 2), [6]), ((5, 0), [6]), ((7, 1), [6]), ((7, 2), [5])] := by decide
  have hs19 : hiddenStep [((2, 0), [2]), ((2, 2), [6]), ((5, 0), [6]), ((7, 1), [6]), ((7, 2), [5])] [(0, 3), (0, 4), (0, 5), (1, 3), (1, 4), (1, 5), (2, 3), (2, 4), (2, 5)] = [((2, 0), [2]), ((2, 2), [6]), ((5, 0), [6]), ((7, 1), [6]), ((7, 2), [5])] :=
    hiddenStep_absent _ _ (by decide)
  have hs20 : hiddenStep [((2, 0), [2]), ((2, 2), [6]), ((5, 0), [6]), ((7, 1), [6]), ((7, 2), [5])] [(0, 6), (0, 7), (0, 8), (1, 6), (1, 7), (1, 8), (2, 6), (2, 7), (2, 8)] = [((2, 0), [2]), ((2, 2), [6]), ((5, 0), [6]), ((7, 1), [6]), ((7, 2), [5])] :=
    hiddenStep_absent _ _ (by decide)
  have hs21 : hiddenStep [((2, 0), [2]), ((2, 2), [6]), ((5, 0), [6]), ((7, 1), [6]), ((7, 2), [5])] [(3, 0), (3, 1), (3, 2), (4, 0), (4, 1), (4, 2), (5, 0), (5, 1), (5, 2)] = [((2, 0), [2]), ((2, 2), [6]), ((5, 0), [6]), ((7, 1), [6]), ((7, 2), [5])] := by decide
  have hs22 : hiddenStep [((2, 0), [2]), ((2, 2), [6]), ((5, 0), [6]), ((7, 1), [6]), ((7, 2), [5])] [(3, 3), (3, 4), (3, 5), (4, 3), (4, 4), (4, 5), (5, 3), (5, 4), (5, 5)] = [((2, 0), [2]), ((2, 2), [6]), ((5, 0), [6]), ((7, 1), [6]), ((7, 2), [5])] :=
    hiddenStep_absent _ _ (by decide)
  have hs23 : hiddenStep [((2, 0), [2]), ((2, 2), [6]), ((5, 0), [6]), ((7, 1), [6]), ((7, 2), [5])] [(3, 6), (3, 7), (3, 8), (4, 6), (4, 7), (4, 8), (5, 6), (5, 7), (5, 8)] = [((2, 0), [2]), ((2, 2), [6]), ((5, 0), [6]), ((7, 1), [6]), ((7, 2), [5])] :=
    hiddenStep_absent _ _ (by decide)
  have hs24 : hiddenStep [((2, 0), [2]), ((2, 2), [6]), ((5, 0), [6]), ((7, 1), [6]), ((7, 2), [5])] [(6, 0), (6, 1), (6, 2), (7, 0), (7, 1), (7, 2), (8, 0), (8, 1), (8, 2)] = [((2, 0), [2]), ((2, 2), [6]), ((5, 0), [6]), ((7, 1), [6]), ((7, 2), [5])] := by decide
  have hs25 : hiddenStep [((2, 0), [2]), ((2, 2), [6]), ((5, 0), [6]), ((7, 1), [6]), ((7, 2), [5])] [(6, 3), (6, 4), (6, 5), (7, 3), (7, 4), (7, 5), (8, 3), (8, 4), (8, 5)] = [((2, 0), [2]), ((2, 2), [6]), ((5, 0), [6]), ((7, 1), [6]), ((7, 2), [5])] :=
    hiddenStep_absent _ _ (by decide)
  have hs26 : hiddenStep [((2, 0), [2]), ((2, 2), [6]), ((5, 0), [6]), ((7, 1), [6]), ((7, 2), [5])] [(6, 6), (6, 7), (6, 8), (7, 6), (7, 7), (7, 8), (8, 6), (8, 7), (8, 8)] = [((2, 0), [2]), ((2, 2), [6]), ((5, 0), [6]), ((7, 1), [6]), ((7, 2), [5])] :=
    hiddenStep_absent _ _ (by decide)
  show applyHiddenPairs (applyPointingPairs (applyNakedSubsets mQ1)) = _
  rw [hn, hp, applyHiddenPairs_foldl, getAllUnits_eq]
  rw [List.foldl_cons, hs0]
  rw [List.foldl_cons, hs1]
  rw [List.foldl_cons, hs2]
  rw [List.foldl_cons, hs3]
  rw [List.foldl_cons, hs4]
  rw [List.foldl_cons, hs5]
  rw [List.foldl_cons, hs6]
  rw [List.foldl_cons, hs7]
  rw [List.foldl_cons, hs8]
  rw [List.foldl_cons, hs9]
  rw [List.foldl_cons, hs10]
  rw [List.foldl_cons, hs11]
  rw [List.foldl_cons, hs12]
  rw [List.foldl_cons, hs13]
  rw [List.foldl_cons, hs14]
  rw [List.foldl_cons, hs15]
  rw [List.foldl_cons, hs16]
  rw [List.foldl_cons, hs17]
  rw [List.foldl_cons, hs18]
  rw [List.foldl_cons, hs19]
  rw [List.foldl_cons, hs20]
  rw [List.foldl_cons, hs21]
  rw [List.foldl_cons, hs22]
  rw [List.foldl_cons, hs23]
  rw [List.foldl_cons, hs24]
  rw [List.foldl_cons, hs25]
  rw [List.foldl_cons, hs26]
  rw [List.foldl_nil]

theorem mem_rowMajorCells (r c : Nat) (hr : r < 9) (hc : c < 9) :
    (r, c) ∈ rowMajorCells := by
  unfold rowMajorCells
  refine List.mem_flatMap.mpr ⟨r, List.mem_range.mpr hr, ?_⟩
  exact List.mem_map.mpr ⟨c, List.mem_range.mpr hc, rfl⟩

/-- C1 (confirmed): for every grid and every configuration of variants, a
`solve` that returns `true` leaves the grid fully assigned, with
`is_board_valid()` true and `validate_solution` true for every configured
variant. -/
theorem claim_C1_solve_soundness (g : SudokuGrid) (h : (solverSolve g).1 = true) :
    isBoardValid (solverSolve g).2.cells = true ∧
      (∀ v ∈ g.variants, v.validateSolutionFn (solverSolve g).2.cells = true) ∧
      (∀ r c, r < 9 → c < 9 → getCell (solverSolve g).2.cells r c ≠ 0) := by
  have key : ∀ b gOut, solverSolve g = (b, gOut) → b = true →
      isBoardValid gOut.cells = true ∧
        (∀ v ∈ g.variants, v.validateSolutionFn gOut.cells = true) ∧
        (∀ r c, r < 9 → c < 9 → getCell gOut.cells r c ≠ 0) := by
    intro b gOut heq hb
    unfold solverSolve at heq
    split at heq
    · cases heq; cases hb
    · rename_i m hga
      have hb2 : (solveRecAux (maxSteps + 2) g m 0).1 = b := congrArg Prod.fst heq
      have hg2 : (solveRecAux (maxSteps + 2) g m 0).2.1 = gOut := congrArg Prod.snd heq
      subst hb2
      subst hg2
      have hval := solveRec_sound (maxSteps + 2) g m 0
        (solveRecAux (maxSteps + 2) g m 0).1 (solveRecAux (maxSteps + 2) g m 0).2.1
        (solveRecAux (maxSteps + 2) g m 0).2.2 rfl hb
      have hvar := solveRec_variants (maxSteps + 2) g m 0
        (solveRecAux (maxSteps + 2) g m 0).1 (solveRecAux (maxSteps + 2) g m 0).2.1
        (solveRecAux (maxSteps + 2) g m 0).2.2 rfl
      unfold validateSolutionAll at hval
      have hboard := ((Bool.and_eq_true _ _).mp hval).1
      have hvars := ((Bool.and_eq_true _ _).mp hval).2
      refine ⟨hboard, ?_, isBoardValid_nonzero _ hboard⟩
      intro v hv
      refine List.all_eq_true.mp hvars v ?_
      rw [hvar]
      exact hv
  exact key (solverSolve g).1 (solverSolve g).2 rfl h

/-- C1 witness: a concrete variant-free grid one placement away from a full
valid board is solved, and the soundness conclusions evaluate there. -/
theorem claim_C1_solve_soundness_witness :
    (solverSolve gridGW).1 = true ∧
      isBoardValid (solverSolve gridGW).2.cells = true := by
  have h : (solverSolve gridGW).1 = true := by rw [solveGW]
  exact ⟨h, (claim_C1_solve_soundness gridGW h).1⟩

/-- C2 counterexample: on `gridG2` the search fails and the cells are
restored, but the grid's candidate map is not: the solver restores only its
own map snapshot, while the grid's `possibilities` keeps the all-digit
entry written by the clearing `set_cell` of the backtrack. -/
theorem claim_C2_restoration_counterexample :
    (solverSolve gridG2).1 = false ∧
      (solverSolve gridG2).2.cells = gridG2.cells ∧
      (solverSolve gridG2).2.possibilities = [((0, 7), allDigits)] ∧
      (solverSolve gridG2).2.possibilities ≠ gridG2.possibilities := by
  rw [solveG2]
  refine ⟨rfl, rfl, rfl, ?_⟩
  show [((0, 7), allDigits)] ≠ gridG2.possibilities
  decide

/-- C2 (amended): for every grid on which `solve` returns false, the cells
equal their pre-solve values; the grid's candidate map need not. -/
theorem claim_C2_restoration_amended (g : SudokuGrid) (h : (solverSolve g).1 = false) :
    (solverSolve g).2.cells = g.cells := by
  have key : ∀ b gOut, solverSolve g = (b, gOut) → b = false → gOut.cells = g.cells := by
    intro b gOut heq hb
    unfold solverSolve at heq
    split at heq
    · cases heq; rfl
    · rename_i m hga
      have hb2 : (solveRecAux (maxSteps + 2) g m 0).1 = b := congrArg Prod.fst heq
      have hg2 : (solveRecAux (maxSteps + 2) g m 0).2.1 = gOut := congrArg Prod.snd heq
      subst hb2
      subst hg2
      refine solveRec_cells (maxSteps + 2) g m 0
        (solveRecAux (maxSteps + 2) g m 0).1 (solveRecAux (maxSteps + 2) g m 0).2.1
        (solveRecAux (maxSteps + 2) g m 0).2.2 ?_ rfl hb
      intro r c hsome
      exact ((buildPossMap_ok_isSome g rowMajorCells m hga (r, c)).mp hsome).2
  exact key (solverSolve g).1 (solverSolve g).2 rfl h

/-- C2 witness: the failing search on `gridG2` leaves the cells equal to
their pre-solve values. -/
theorem claim_C2_restoration_amended_witness :
    (solverSolve gridG2).1 = false ∧ (solverSolve gridG2).2.cells = gridG2.cells := by
  have h : (solverSolve gridG2).1 = false := by rw [solveG2]
  exact ⟨h, claim_C2_restoration_amended gridG2 h⟩

/-- C3 counterexample: `set_cell` has no error channel and stores an empty
candidate set in the grid's map: placing 9 at (1,8) on `gridG3` leaves the
still-empty cell (0,8) with the stored entry `[]`. -/
theorem claim_C3_set_propagation_counterexample :
    plookup (setCell gridG3 1 8 9).possibilities (0, 8) = some [] ∧
      getCell (setCell gridG3 1 8 9).cells 0 8 = 0 := by decide

/-- C3 (amended): the grid-level `set_cell` is total (it returns a grid, not
a result) and may store empty candidate sets; a contradiction is surfaced
only by the solver's map recomputation, whose successful results never
contain an empty candidate set. -/
theorem claim_C3_set_propagation_amended (g : SudokuGrid) (m : PossMap)
    (h : solverUpdateAll g = .ok m) : ∀ rc p, plookup m rc = some p → p ≠ [] :=
  buildPossMap_ok_nonempty g rowMajorCells m h

/-- C3 witness: the recomputed map of `gridGW` holds the non-empty entry
`[4]` for its one empty cell. -/
theorem claim_C3_set_propagation_amended_witness :
    solverUpdateAll gridGW = .ok [((8, 8), [4])] ∧ ([4] : List Nat) ≠ [] := by
  have h : solverUpdateAll gridGW = .ok [((8, 8), [4])] := rfl
  exact ⟨h, claim_C3_set_propagation_amended gridGW [((8, 8), [4])] h (8, 8) [4] (by decide)⟩

/-- C4 counterexample: on `gridGP` the solver map after the passes holds
`[8]` for the empty cell (8,0) and sends the search to place 9 at (1,0);
recomputation plus passes after that placement yields `[2, 8]` there — the
candidate set of an untouched empty cell grows inside the branch, because
`update_possibilities` rebuilds candidates from the grid alone and the
previous passes' prunings are lost. -/
theorem claim_C4_monotonicity_counterexample :
    solverUpdateAll gridGP = .ok mPA ∧
      findMostConstrainedCell (applyPasses mPA) = .cell 1 0 [9] ∧
      solverUpdateAll (setCell gridGP 1 0 9) = .ok mPB ∧
      plookup (applyPasses mPA) (8, 0) = some [8] ∧
      plookup (applyPasses mPB) (8, 0) = some [2, 8] ∧
      2 ∉ ([8] : List Nat) := by
  have hA : solverUpdateAll gridGP = .ok mPA := rfl
  have hB : solverUpdateAll (setCell gridGP 1 0 9) = .ok mPB := rfl
  refine ⟨hA, ?_, hB, ?_, ?_, by decide⟩
  · rw [passesEval_mPA]; decide
  · rw [passesEval_mPA]; decide
  · rw [passesEval_mPB]; decide

/-- C4 (amended): each run of the passes only shrinks the map it is given,
and on a variant-free grid the map recomputed after a placement is pointwise
dominated by the map recomputed before it; monotonicity across a placement
holds for the recomputed maps, not for the passed maps. -/
theorem claim_C4_monotonicity_amended (g : SudokuGrid) (r c v : Nat) (m m' : PossMap)
    (hv : g.variants = []) (hempty : getCell g.cells r c = 0)
    (hm : solverUpdateAll g = .ok m)
    (hm' : solverUpdateAll (setCell g r c v) = .ok m') :
    possLe (applyPasses m') m' ∧ possLe m' m :=
  ⟨possLe_applyPasses m', updateAll_novariant_monotone g r c v m m' hv hempty hm hm'⟩

/-- C4 witness: the amended monotonicity evaluated on `gridGP` and the
placement of 9 at (1,0). -/
theorem claim_C4_monotonicity_amended_witness :
    gridGP.variants = [] ∧ getCell gridGP.cells 1 0 = 0 ∧
      solverUpdateAll gridGP = .ok mPA ∧
      solverUpdateAll (setCell gridGP 1 0 9) = .ok mPB ∧
      possLe (applyPasses mPB) mPB ∧ possLe mPB mPA := by
  have h1 : gridGP.variants = [] := rfl
  have h2 : getCell gridGP.cells 1 0 = 0 := by decide
  have hA : solverUpdateAll gridGP = .ok mPA := rfl
  have hB : solverUpdateAll (setCell gridGP 1 0 9) = .ok mPB := rfl
  have main := claim_C4_monotonicity_amended gridGP 1 0 9 mPA mPB h1 h2 hA hB
  exact ⟨h1, h2, hA, hB, main.1, main.2⟩

/-- C5 (confirmed): the step counter strictly increases on every call, a
call entered with the budget exhausted returns false immediately with one
increment, and the result is independent of the recursion bound once it
covers the remaining budget — the termination argument of the search. -/
theorem claim_C5_termination_budget (gas : Nat) (g : SudokuGrid) (m : PossMap) (s : Nat) :
    s + 1 ≤ (solveRecAux gas g m s).2.2 ∧
      (maxSteps ≤ s → solveRecAux gas g m s = (false, g, s + 1)) ∧
      (∀ gas', maxSteps + 2 - s ≤ gas → maxSteps + 2 - s ≤ gas' →
        solveRecAux gas g m s = solveRecAux gas' g m s) :=
  ⟨solveRec_steps gas g m s, fun h => solveRec_budget gas g m s h,
    fun gas' h1 h2 => solveRec_stable gas gas' g m s h1 h2⟩

/-- C5 witness: entered at the budget boundary, the search returns false
with the counter incremented once. -/
theorem claim_C5_termination_budget_witness :
    maxSteps ≤ maxSteps ∧
      solveRecAux (maxSteps + 2) gridG8 [((0, 0), allDigits)] maxSteps =
        (false, gridG8, maxSteps + 1) :=
  ⟨Nat.le_refl _,
    (claim_C5_termination_budget (maxSteps + 2) gridG8 [((0, 0), allDigits)] maxSteps).2.1
      (Nat.le_refl _)⟩

/-- C6 (code_bug): `KillerCage::validate_solution` checks coverage and the
total but never checks for repeated digits: a two-cell cage holding 5 and 5
with target 10 validates, although the spec requires cages to contain no
repeats. -/
theorem claim_C6_killer_no_repeat_check :
    killerValidateSolution { cells := [(0, 0), (0, 1)], total := 10 } cellsK = true ∧
      getCell cellsK 0 0 = 5 ∧ getCell cellsK 0 1 = 5 := by decide

/-- C7 counterexample: the three passes are not idempotent: on the solver
map of `gridGQ`, the first run prunes (2,0) to `[2]` and the second run then
prunes (7,2) from `[5, 6]` to `[5]` (the pointing-pairs step only fires
after the hidden-subset prunings of the first run). -/
theorem claim_C7_idempotence_counterexample :
    solverGetAll gridGQ = .ok mQA ∧
      applyPasses mQA = mQ1 ∧
      plookup (applyPasses mQA) (7, 2) = some [5, 6] ∧
      plookup (applyPasses (applyPasses mQA)) (7, 2) = some [5] ∧
      applyPasses (applyPasses mQA) ≠ applyPasses mQA := by
  have hga : solverGetAll gridGQ = .ok mQA := rfl
  have h1 : applyPasses mQA = mQ1 := passesEval_mQA
  refine ⟨hga, h1, ?_, ?_, ?_⟩
  · rw [h1]; decide
  · rw [h1, passesEval_mQ1]; decide
  · rw [h1, passesEval_mQ1]; decide

/-- C7 (amended): a second run of the passes never grows the map — its
result is pointwise contained in the first run's result and keeps the same
keys — but it need not leave it unchanged. -/
theorem claim_C7_idempotence_amended (m : PossMap) :
    possLe (applyPasses (applyPasses m)) (applyPasses m) ∧
      keysSame (applyPasses (applyPasses m)) (applyPasses m) :=
  ⟨possLe_applyPasses (applyPasses m), keysSame_applyPasses (applyPasses m)⟩

/-- C7 witness: the amended contraction property at the map of `gridGQ`. -/
theorem claim_C7_idempotence_amended_witness :
    possLe (applyPasses (applyPasses mQA)) (applyPasses mQA) ∧
      keysSame (applyPasses (applyPasses mQA)) (applyPasses mQA) :=
  claim_C7_idempotence_amended mQA

/-- C8 counterexample: after placing 5 at (0,0) the cell's entry is still in
the grid's map — overwritten to `[5]`, not removed. -/
theorem claim_C8_entry_removed_counterexample :
    plookup (setCell gridG8 0 0 5).possibilities (0, 0) = some [5] ∧
      plookup (setCell gridG8 0 0 5).possibilities (0, 0) ≠ none := by decide

/-- C8 (amended): after `set_cell(r,c,v)` with `v ≠ 0` on a variant-free
grid the placed cell's entry is overwritten with the singleton `[v]` (and
in particular not removed). -/
theorem claim_C8_entry_singleton_amended (g : SudokuGrid) (row col v : Nat)
    (hv : g.variants = []) (hne : v ≠ 0) :
    plookup (setCell g row col v).possibilities (row, col) = some [v] :=
  setCell_own_entry g row col v hv hne

/-- C8 witness: the amended singleton-entry property at `gridG8`. -/
theorem claim_C8_entry_singleton_amended_witness :
    gridG8.variants = [] ∧ (5 : Nat) ≠ 0 ∧
      plookup (setCell gridG8 0 0 5).possibilities (0, 0) = some [5] :=
  ⟨rfl, by decide, claim_C8_entry_singleton_amended gridG8 0 0 5 rfl (by decide)⟩

/-- C9 (confirmed): for a normal quadruple circle, the derivation errs
exactly when the missing required digits outnumber the empty circle cells;
otherwise every filled circle cell maps to the singleton of its value and
every empty circle cell maps to the missing digits when they exactly fit,
and to all digits when there is spare room. -/
theorem claim_C9_quad_normal (q : QuadrupleCircle) (cs : Cells) (hAnti : q.isAnti = false) :
    ((∃ e, quadGetPossibilities q cs = .error e) ↔
        quadEmptyCount q cs < (quadMissing q cs).length) ∧
      ∀ m, quadGetPossibilities q cs = .ok m → ∀ rc, rc ∈ q.cells →
        (getCell cs rc.1 rc.2 ≠ 0 → plookup m rc = some [getCell cs rc.1 rc.2]) ∧
        (getCell cs rc.1 rc.2 = 0 →
          plookup m rc =
            some (if quadEmptyCount q cs = (quadMissing q cs).length
                  then quadMissing q cs else allDigits)) := by
  unfold quadGetPossibilities
  rw [hAnti, if_pos rfl]
  by_cases hlt : quadEmptyCount q cs < (quadMissing q cs).length
  · rw [if_pos hlt]
    refine ⟨⟨fun _ => hlt, fun _ => ⟨_, rfl⟩⟩, ?_⟩
    intro m hm
    exact Except.noConfusion hm
  · rw [if_neg hlt]
    by_cases heq : quadEmptyCount q cs = (quadMissing q cs).length
    · rw [if_pos heq]
      constructor
      · constructor
        · rintro ⟨e, he⟩
          exact Except.noConfusion he
        · intro h
          exact absurd h hlt
      · intro m hm rc hrc
        have hm' : quadInsert q cs (quadMissing q cs) = m := by
          cases hm
          rfl
        subst hm'
        constructor
        · intro hne
          rw [plookup_quadInsert q cs _ rc hrc, if_pos hne]
        · intro hz
          rw [plookup_quadInsert q cs _ rc hrc, if_neg (fun hcon => hcon hz), if_pos heq]
    · rw [if_neg heq]
      constructor
      · constructor
        · rintro ⟨e, he⟩
          exact Except.noConfusion he
        · intro h
          exact absurd h hlt
      · intro m hm rc hrc
        have hm' : quadInsert q cs allDigits = m := by
          cases hm
          rfl
        subst hm'
        constructor
        · intro hne
          rw [plookup_quadInsert q cs _ rc hrc, if_pos hne]
        · intro hz
          rw [plookup_quadInsert q cs _ rc hrc, if_neg (fun hcon => hcon hz), if_neg heq]

/-- C9 witness: on `csW` the circle `qW` has its required 5 already placed,
so the filled cell maps to `[5]` and an empty cell maps to all digits. -/
theorem claim_C9_quad_normal_witness :
    qW.isAnti = false ∧
      quadGetPossibilities qW csW = .ok mWq ∧
      plookup mWq (1, 1) = some [5] ∧ plookup mWq (1, 2) = some allDigits := by
  have hAnti : qW.isAnti = false := rfl
  have hok : quadGetPossibilities qW csW = .ok mWq := rfl
  have main := claim_C9_quad_normal qW csW hAnti
  refine ⟨hAnti, hok, ?_, ?_⟩
  · have h := (main.2 mWq hok (1, 1) (by decide)).1 (by decide)
    exact (show getCell csW 1 1 = 5 from rfl) ▸ h
  · have h := (main.2 mWq hok (1, 2) (by decide)).2 (by decide)
    rw [if_neg (by decide)] at h
    exact h

/-- C10 (confirmed): whenever the solver's map recomputation succeeds, the
map's keys are exactly the empty cells of the grid, the passes preserve that
key set, and an empty map forces a fully assigned grid. -/
theorem claim_C10_map_keys (g : SudokuGrid) (m : PossMap)
    (h : solverUpdateAll g = .ok m) :
    (∀ rc, rc ∈ rowMajorCells →
        ((plookup m rc).isSome = true ↔ getCell g.cells rc.1 rc.2 = 0)) ∧
      (∀ rc, (plookup (applyPasses m) rc).isSome = (plookup m rc).isSome) ∧
      (m = [] → ∀ r c, r < 9 → c < 9 → getCell g.cells r c ≠ 0) := by
  refine ⟨?_, keysSame_applyPasses m, ?_⟩
  · intro rc hmem
    constructor
    · intro hs
      exact ((buildPossMap_ok_isSome g rowMajorCells m h rc).mp hs).2
    · intro hz
      exact (buildPossMap_ok_isSome g rowMajorCells m h rc).mpr ⟨hmem, hz⟩
  · intro hm r c hr hc hz
    have hs : (plookup m (r, c)).isSome = true :=
      (buildPossMap_ok_isSome g rowMajorCells m h (r, c)).mpr
        ⟨mem_rowMajorCells r c hr hc, hz⟩
    rw [hm] at hs
    simp [plookup] at hs

/-- C10 witness: the key-set correspondence at the one empty cell of
`gridGW`. -/
theorem claim_C10_map_keys_witness :
    solverUpdateAll gridGW = .ok [((8, 8), [4])] ∧
      ((plookup [((8, 8), [4])] (8, 8)).isSome = true ↔ getCell gridGW.cells 8 8 = 0) := by
  have h : solverUpdateAll gridGW = .ok [((8, 8), [4])] := rfl
  exact ⟨h, (claim_C10_map_keys gridGW [((8, 8), [4])] h).1 (8, 8) (by decide)⟩

end SudokuSpec

